import Mathlib

/-!
# lua-cv: a shallow embedding of `luacv.c`

The binding layer is embedded as pure functions over a small model of the
Lua 5.1 C API.  A C function of the binding receives its argument stack as a
`List LuaValue` (index 1 is the head) and yields either the values it returns
to the script or the error it raises.  Native OpenCV entry points are black
boxes: they are passed in as functions, and the calls that matter for
resource lifetime are recorded as a list of `NativeCall`.

Numbers of the script (`lua_Number`, a C double) are modelled by rationals;
C integers are mathematical integers wrapped to their width.
-/

namespace LuaCV

/-! ## Platform parameters -/

/-- Sizes, in bytes, of the C types whose `sizeof` the source uses. -/
structure ABI where
  /-- The value of `sizeof(void*)`, also the size of `size_t` and `ptrdiff_t`. -/
  sizeofPtr : Nat
  /-- The value of `sizeof(int)`. -/
  sizeofInt : Nat
  /-- The value of `sizeof(CvPoint2D32f)`: two `float` coordinates. -/
  sizeofPoint : Nat
  deriving DecidableEq, Repr

/-- The LP64 platform: 8-byte pointers, 4-byte `int`, 8-byte points. -/
def lp64 : ABI := { sizeofPtr := 8, sizeofInt := 4, sizeofPoint := 8 }

/-- Conversion of a mathematical integer to a signed two's-complement
integer of `bits` bits. -/
def wrapSigned (bits : Nat) (z : Int) : Int :=
  (z + 2 ^ (bits - 1)) % 2 ^ bits - 2 ^ (bits - 1)

/-- Conversion to `size_t`: reduction modulo `2 ^ (8 * sizeof(size_t))`. -/
def toSizeT (abi : ABI) (n : Nat) : Nat := n % 2 ^ (8 * abi.sizeofPtr)

/-- Conversion to `int`. -/
def toCInt (abi : ABI) (z : Int) : Int := wrapSigned (8 * abi.sizeofInt) z

/-- Conversion to `ptrdiff_t`, the type behind `lua_Integer`. -/
def toPtrdiff (abi : ABI) (z : Int) : Int := wrapSigned (8 * abi.sizeofPtr) z

/-- The largest `int` of the platform. -/
def INT_MAX (abi : ABI) : Int := 2 ^ (8 * abi.sizeofInt - 1) - 1

/-- The smallest `int` of the platform. -/
def INT_MIN (abi : ABI) : Int := -(2 ^ (8 * abi.sizeofInt - 1))

/-! ## Script values -/

/-- What a userdata block holds in front of its flag word. -/
inductive Payload where
  /-- Nothing has been written yet. -/
  | uninit
  /-- One native pointer at offset 0 (0 is `NULL`). -/
  | pointer (p : Nat)
  /-- An array of 2D points, `memcpy`-ed in. -/
  | corners (pts : List (Rat × Rat))
  deriving DecidableEq, Repr

/-- A full userdata block as `lcvL_newuserdata` lays it out: the payload, and
an `int` of flags written `flagsOffset` bytes from the start. -/
structure Userdata where
  /-- Name under which the metatable of the block is registered, if it has one. -/
  metaname : Option String
  /-- Number of bytes allocated, as `lua_objlen` reports it. -/
  len : Nat
  /-- Contents of the payload area. -/
  payload : Payload
  /-- Byte offset of the flag word. -/
  flagsOffset : Nat
  /-- The flag word. -/
  flags : Int
  deriving DecidableEq, Repr

/-- Values of the scripting language. A table is modelled by its array part
(indices `1..n`) and its string-keyed part. -/
inductive LuaValue where
  | nil
  | boolean (b : Bool)
  | lightuserdata (p : Nat)
  | number (x : Rat)
  | string (s : String)
  | table (arr : List LuaValue) (hash : List (String × LuaValue))
  | function (id : Nat)
  | userdata (u : Userdata)
  | thread (id : Nat)

/-- The type tags of `lua.h`. -/
inductive LuaType where
  | LUA_TNONE | LUA_TNIL | LUA_TBOOLEAN | LUA_TLIGHTUSERDATA | LUA_TNUMBER
  | LUA_TSTRING | LUA_TTABLE | LUA_TFUNCTION | LUA_TUSERDATA | LUA_TTHREAD
  deriving DecidableEq, Repr

/-- Errors raised through `lua_error`. -/
inductive LuaError where
  /-- Raised by `luaL_error`, with the formatted message. -/
  | error (msg : String)
  /-- Raised by `luaL_typerror`: argument `narg` is not of the expected type. -/
  | typerror (narg : Nat) (tname : String)
  /-- Raised by `luaL_argerror`: argument `narg` is bad for another reason. -/
  | argerror (narg : Nat) (msg : String)
  /-- The C code did something the model gives no meaning to, such as reading
  memory that nothing has written. -/
  | undefined
  deriving DecidableEq, Repr

/-! ## The part of the Lua 5.1 C API the binding uses -/

/-- Library routines of the Lua core whose results the binding only passes
on: the conversion of a string to a number (`luaO_str2d`) and the formatting
of a number as a string (`lua_number2str`). -/
structure LuaLib where
  /-- Parse a string as a number; `none` when it is not a numeral. -/
  str2d : String → Option Rat
  /-- Format a number as a string. -/
  num2str : Rat → String

/-- The value at a positive stack index; `none` beyond the top (and at 0). -/
def stackAt (stack : List LuaValue) (idx : Nat) : Option LuaValue :=
  if idx = 0 then none else stack.get? (idx - 1)

/-- The type tag of a value. -/
def LuaValue.type : LuaValue → LuaType
  | .nil => .LUA_TNIL
  | .boolean _ => .LUA_TBOOLEAN
  | .lightuserdata _ => .LUA_TLIGHTUSERDATA
  | .number _ => .LUA_TNUMBER
  | .string _ => .LUA_TSTRING
  | .table _ _ => .LUA_TTABLE
  | .function _ => .LUA_TFUNCTION
  | .userdata _ => .LUA_TUSERDATA
  | .thread _ => .LUA_TTHREAD

/-- The model of `lua_type`: the tag of the value at `idx`, `LUA_TNONE` for
an index beyond the top of the stack. -/
def lua_type (stack : List LuaValue) (idx : Nat) : LuaType :=
  match stackAt stack idx with
  | some v => v.type
  | none => .LUA_TNONE

/-- The model of `lua_typename`. -/
def lua_typename : LuaType → String
  | .LUA_TNONE => "no value"
  | .LUA_TNIL => "nil"
  | .LUA_TBOOLEAN => "boolean"
  | .LUA_TLIGHTUSERDATA => "userdata"
  | .LUA_TNUMBER => "number"
  | .LUA_TSTRING => "string"
  | .LUA_TTABLE => "table"
  | .LUA_TFUNCTION => "function"
  | .LUA_TUSERDATA => "userdata"
  | .LUA_TTHREAD => "thread"

/-- The model of `lua_isnil` on a value already fetched. -/
def LuaValue.isnil : LuaValue → Bool
  | .nil => true
  | _ => false

/-- The model of `lua_isnoneornil`. -/
def lua_isnoneornil (stack : List LuaValue) (idx : Nat) : Bool :=
  match stackAt stack idx with
  | none => true
  | some v => v.isnil

/-- The number a value converts to: a number is itself, a string is parsed,
nothing else converts (`luaV_tonumber`). -/
def LuaValue.tonumber (lib : LuaLib) : LuaValue → Option Rat
  | .number x => some x
  | .string s => lib.str2d s
  | _ => none

/-- The C cast of a double to an integer type drops the fraction. -/
def truncRat (x : Rat) : Int := Int.tdiv x.num x.den

/-- The model of `lua_tointeger` on a value: the number it converts to, cast
to `lua_Integer` (`ptrdiff_t`), and 0 for a value that is not a number. -/
def LuaValue.tointeger (abi : ABI) (lib : LuaLib) (v : LuaValue) : Int :=
  match v.tonumber lib with
  | some x => toPtrdiff abi (truncRat x)
  | none => 0

/-- The model of `lua_tointeger` at a stack index. -/
def lua_tointeger (abi : ABI) (lib : LuaLib) (stack : List LuaValue) (idx : Nat) : Int :=
  match stackAt stack idx with
  | some v => v.tointeger abi lib
  | none => 0

/-- The model of `lua_isnumber`. -/
def lua_isnumber (lib : LuaLib) (stack : List LuaValue) (idx : Nat) : Bool :=
  match stackAt stack idx with
  | some v => (v.tonumber lib).isSome
  | none => false

/-- The model of `lua_rawgeti` on a value that `luaL_checktype` has shown to
be a table: entry `n` of the array part, `nil` outside it. -/
def lua_rawgeti (t : LuaValue) (n : Nat) : LuaValue :=
  match t with
  | .table arr _ => if n = 0 then .nil else (arr.get? (n - 1)).getD .nil
  | _ => .nil

/-- Lookup in the string-keyed part of a table. -/
def hashGet (hash : List (String × LuaValue)) (k : String) : LuaValue :=
  match hash.find? (fun e => e.1 == k) with
  | some e => e.2
  | none => .nil

/-- The model of `luaL_typerror`. -/
def luaL_typerror {α : Type} (narg : Nat) (tname : String) : Except LuaError α :=
  .error (.typerror narg tname)

/-- The model of `luaL_checktype`. -/
def luaL_checktype (stack : List LuaValue) (narg : Nat) (t : LuaType) : Except LuaError Unit :=
  if lua_type stack narg = t then .ok () else luaL_typerror narg (lua_typename t)

/-- The model of `luaL_checklstring`: a string is returned, a number is
formatted, anything else is a type error. -/
def luaL_checkstring (lib : LuaLib) (stack : List LuaValue) (narg : Nat) :
    Except LuaError String :=
  match stackAt stack narg with
  | some (.string s) => .ok s
  | some (.number x) => .ok (lib.num2str x)
  | _ => luaL_typerror narg (lua_typename .LUA_TSTRING)

/-- The model of `luaL_checkinteger`. -/
def luaL_checkinteger (abi : ABI) (lib : LuaLib) (stack : List LuaValue) (narg : Nat) :
    Except LuaError Int :=
  let d := lua_tointeger abi lib stack narg
  if d = 0 ∧ lua_isnumber lib stack narg = false then
    luaL_typerror narg (lua_typename .LUA_TNUMBER)
  else .ok d

/-- The model of `luaL_checkint`: `luaL_checkinteger` cast to `int`. -/
def luaL_checkint (abi : ABI) (lib : LuaLib) (stack : List LuaValue) (narg : Nat) :
    Except LuaError Int :=
  (luaL_checkinteger abi lib stack narg).map (toCInt abi)

/-- The model of `luaL_optinteger`. -/
def luaL_optinteger (abi : ABI) (lib : LuaLib) (stack : List LuaValue) (narg : Nat)
    (d : Int) : Except LuaError Int :=
  if lua_isnoneornil stack narg then .ok d else luaL_checkinteger abi lib stack narg

/-- The model of `luaL_optint`: `luaL_optinteger` cast to `int`. -/
def luaL_optint (abi : ABI) (lib : LuaLib) (stack : List LuaValue) (narg : Nat)
    (d : Int) : Except LuaError Int :=
  (luaL_optinteger abi lib stack narg d).map (toCInt abi)

/-- The scan that `luaL_checkoption` makes over a C array of option names,
from position `i` on: the position of the first entry equal to `name`; an
argument error at the `NULL` entry, here `none`, that ends the array. In an
array without that entry the scan for an unknown name runs past the end. -/
def findOption (narg : Nat) (name : String) : List (Option String) → Nat → Except LuaError Nat
  | [], _ => .error .undefined
  | none :: _, _ => .error (.argerror narg ("invalid option \x27" ++ name ++ "\x27"))
  | some s :: rest, i => if s = name then .ok i else findOption narg name rest (i + 1)

/-- The model of `luaL_checkoption`: the name is the argument, or the default
`d` when there is one and the argument is absent or nil; the result is its
position in the array `lst`. -/
def luaL_checkoption (lib : LuaLib) (stack : List LuaValue) (narg : Nat)
    (d : Option String) (lst : List (Option String)) : Except LuaError Nat := do
  let name ←
    match d with
    | some dflt =>
      if lua_isnoneornil stack narg then pure dflt else luaL_checkstring lib stack narg
    | none => luaL_checkstring lib stack narg
  findOption narg name lst 0

/-- The model of `luaL_checkudata`: a full userdata whose metatable is the
one registered under `tname` is returned, anything else is a type error. -/
def luaL_checkudata (stack : List LuaValue) (ud : Nat) (tname : String) :
    Except LuaError Userdata :=
  match stackAt stack ud with
  | some (.userdata u) =>
    if u.metaname = some tname then .ok u else luaL_typerror ud tname
  | _ => luaL_typerror ud tname

/-- The model of `lua_getfield` on a table without metatable. A value that is
not a table and has no `__index` metamethod cannot be indexed: the Lua core
raises an error. -/
def lua_getfield (t : LuaValue) (k : String) : Except LuaError LuaValue :=
  match t with
  | .table _ hash => .ok (hashGet hash k)
  | v => .error (.error ("attempt to index a " ++ lua_typename v.type ++ " value"))

/-- The model of `lua_objlen` on a full userdata: the size of the block. -/
def lua_objlen (u : Userdata) : Nat := u.len

/-! ## Native data and calls -/

/-- The null pointer. -/
def NULL : Nat := 0

/-- The model of `CvSize`. -/
structure CvSize where
  width : Int
  height : Int
  deriving DecidableEq, Repr

/-- The model of `cvSize`. -/
def cvSize (x y : Int) : CvSize := { width := x, height := y }

/-- The model of `CvTermCriteria`; `type` is a set of flag bits. -/
structure CvTermCriteria where
  type : Nat
  max_iter : Int
  epsilon : Rat
  deriving DecidableEq, Repr

/-- The pixel depth constants of OpenCV, kept symbolic. -/
inductive IplDepth where
  | IPL_DEPTH_8U | IPL_DEPTH_8S | IPL_DEPTH_16U | IPL_DEPTH_16S
  | IPL_DEPTH_32S | IPL_DEPTH_32F | IPL_DEPTH_64F
  deriving DecidableEq, Repr

/-- Calls into the native library that the binding makes for their effect. -/
inductive NativeCall where
  | cvReleaseCapture (cap : Nat)
  | cvFindCornerSubPix (img : Nat) (corners : Payload) (count : Int) (win zeroZone : CvSize)
      (criteria : CvTermCriteria)
  | cvDrawChessboardCorners (img : Nat) (size : CvSize) (corners : Payload) (count : Int)
      (found : Int)
  | cvCreateTrackbar (tbName wndName : String) (valueCell : Nat) (max : Int) (onChange : Nat)
  deriving DecidableEq, Repr

/-! ## Utility functions of `luacv.c` -/

def CV_META_IMAGE : String := "lcvImage"
def CV_META_CAPTURE : String := "lcvCapture"
def CV_META_CORNERS : String := "lcvCorners"

def LCV_FLAG_RELEASE : Int := 1

/-- The pointer stored at offset 0 of a block (`*img`, `*cap`). -/
def Userdata.deref (u : Userdata) : Except LuaError Nat :=
  match u.payload with
  | .pointer p => .ok p
  | _ => .error .undefined

/-- The model of `LCV_GET`. -/
def LCV_GET (stack : List LuaValue) (name : String) (idx : Nat) : Except LuaError Userdata :=
  luaL_checkudata stack idx name

/-- The model of `LCV_SELF`. -/
def LCV_SELF (stack : List LuaValue) (name : String) : Except LuaError Userdata :=
  LCV_GET stack name 1

/-- The model of `lcvL_toCvArr`: a full userdata must be an image handle and
yields its pointer, a table yields `NULL`, any other value is a type error. -/
def lcvL_toCvArr (stack : List LuaValue) (idx : Nat) : Except LuaError Nat :=
  match lua_type stack idx with
  | .LUA_TUSERDATA => do
    let img ← LCV_GET stack CV_META_IMAGE idx
    img.deref
  | .LUA_TTABLE => .ok NULL
  | _ => luaL_typerror idx "table/userdata"

/-- The model of `lcvL_toCriteria`, for the flag values `EPS` and `ITER` of
`CV_TERMCRIT_EPS` and `CV_TERMCRIT_ITER`. -/
def lcvL_toCriteria (abi : ABI) (lib : LuaLib) (EPS ITER : Nat) (t : LuaValue) :
    Except LuaError CvTermCriteria := do
  let crit : CvTermCriteria := { type := 0, max_iter := 0, epsilon := 0 }
  let eps ← lua_getfield t "eps"
  let crit :=
    if !eps.isnil then
      { crit with type := EPS, epsilon := (eps.tointeger abi lib : Int) }
    else crit
  let iter ← lua_getfield t "iter"
  let crit :=
    if !iter.isnil then
      { crit with type := crit.type ||| ITER, max_iter := toCInt abi (iter.tointeger abi lib) }
    else crit
  pure crit

/-- The model of `lcvL_toCvSize`. -/
def lcvL_toCvSize (abi : ABI) (lib : LuaLib) (stack : List LuaValue) (idx : Nat) :
    Except LuaError CvSize := do
  luaL_checktype stack idx .LUA_TTABLE
  let t := (stackAt stack idx).getD .nil
  let x := toCInt abi ((lua_rawgeti t 1).tointeger abi lib)
  let y := toCInt abi ((lua_rawgeti t 2).tointeger abi lib)
  pure (cvSize x y)

/-- The model of `lcvL_shouldRelease`: the flag word `size` bytes into the
block, masked with `LCV_FLAG_RELEASE`. -/
def lcvL_shouldRelease (ptr : Userdata) (size : Nat) : Except LuaError Int :=
  if size = ptr.flagsOffset then .ok (Int.land ptr.flags LCV_FLAG_RELEASE)
  else .error .undefined

/-- The model of `lcvL_newuserdata`: a block of `size + sizeof(int)` bytes
whose flag word, `size` bytes in, is `should_gc`, with the metatable
registered under `metaname`. -/
def lcvL_newuserdata (abi : ABI) (metaname : String) (size : Nat) (should_gc : Int) :
    Userdata :=
  { metaname := some metaname
    len := toSizeT abi (size + abi.sizeofInt)
    payload := .uninit
    flagsOffset := size
    flags := should_gc }

/-- The model of `lcvL_pushsize`: the table `{width, height}`. -/
def lcvL_pushsize (size : CvSize) : LuaValue :=
  .table [.number size.width, .number size.height] []

/-- The model of `LCV_NEW(IplImage, CV_META_IMAGE, should_gc)` followed by the
store `*ret = img`. -/
def newImage (abi : ABI) (img : Nat) (should_gc : Int) : Userdata :=
  let ret := lcvL_newuserdata abi CV_META_IMAGE abi.sizeofPtr should_gc
  { ret with payload := .pointer img }

/-- The model of `lcvL_pushimage`: `nil` for a null image, otherwise a new
image handle holding the pointer. -/
def lcvL_pushimage (abi : ABI) (img : Nat) (should_gc : Int) : LuaValue :=
  if img = NULL then .nil else .userdata (newImage abi img should_gc)

/-! ## Cv functions -/

def IMG_depth_values : List IplDepth :=
  [.IPL_DEPTH_8U, .IPL_DEPTH_8S, .IPL_DEPTH_16U, .IPL_DEPTH_16S,
   .IPL_DEPTH_32S, .IPL_DEPTH_32F, .IPL_DEPTH_64F]

/-- The array `IMG_depth_names`; the source gives it no `NULL` entry at the
end. -/
def IMG_depth_names : List (Option String) :=
  [some "8u", some "8s", some "16u", some "16s", some "32s", some "32f", some "64f"]

/-- The model of `lcv_cv_CreateImage`; `cvCreateImage` is the native
constructor, which yields the pointer to the new image. -/
def lcv_cv_CreateImage (abi : ABI) (lib : LuaLib)
    (cvCreateImage : CvSize → IplDepth → Int → Nat) (stack : List LuaValue) :
    Except LuaError (List LuaValue) := do
  let size ← lcvL_toCvSize abi lib stack 1
  let depthIdx ← luaL_checkoption lib stack 2 (some "8u") IMG_depth_names
  let channels ← (luaL_optinteger abi lib stack 3 3).map (toCInt abi)
  let img := cvCreateImage size (IMG_depth_values.getD depthIdx .IPL_DEPTH_8U) channels
  pure [lcvL_pushimage abi img 1]

/-- The model of `lcv_cv_GetSize`; `cvGetSize` is the native accessor. -/
def lcv_cv_GetSize (cvGetSize : Nat → CvSize) (stack : List LuaValue) :
    Except LuaError (List LuaValue) := do
  let arr ← lcvL_toCvArr stack 1
  let size := cvGetSize arr
  pure [lcvL_pushsize size]

/-- Conversion of an `int` to `size_t`. -/
def intToSizeT (abi : ABI) (z : Int) : Nat := (z % 2 ^ (8 * abi.sizeofPtr)).toNat

/-- What `cvFindChessboardCorners` hands back: its return value, the corner
count it stores through the `count` pointer (an `int`, so the binding sees
it converted to `int`), and the corners it wrote. -/
structure ChessboardResult where
  ret : Int
  count : Int
  corners : List (Rat × Rat)

/-- The model of `lcv_cv_FindChessboardCorners`; the native detector receives
the image, the board size and the capacity of the corner buffer. -/
def lcv_cv_FindChessboardCorners (abi : ABI) (lib : LuaLib)
    (cvFindChessboardCorners : Nat → CvSize → Int → ChessboardResult)
    (stack : List LuaValue) : Except LuaError (List LuaValue) := do
  let img ← lcvL_toCvArr stack 1
  let size ← lcvL_toCvSize abi lib stack 2
  let count := toCInt abi (size.width * size.height)
  let r := cvFindChessboardCorners img size count
  let count := toCInt abi r.count
  if r.ret = 0 then
    pure [.nil]
  else
    let bytes := toSizeT abi (intToSizeT abi count * abi.sizeofPoint)
    let result := lcvL_newuserdata abi CV_META_CORNERS bytes 1
    let result := { result with payload := .corners (r.corners.take (bytes / abi.sizeofPoint)) }
    pure [.userdata result, .number count]

/-- The corner count that `lcv_cv_FindCornerSubPix` and
`lcv_cv_DrawChessboardCorners` compute from a corner handle:
`lua_objlen(L, idx) / sizeof(CvPoint2D32f)`, stored in an `int`. -/
def cornerCount (abi : ABI) (corners : Userdata) : Int :=
  toCInt abi ((lua_objlen corners / abi.sizeofPoint : Nat) : Int)

/-- The model of `lcv_cv_FindCornerSubPix`; the criteria flag values are
parameters as in `lcvL_toCriteria`. -/
def lcv_cv_FindCornerSubPix (abi : ABI) (lib : LuaLib) (EPS ITER : Nat)
    (stack : List LuaValue) : Except LuaError (List LuaValue × List NativeCall) := do
  let img ← lcvL_toCvArr stack 1
  let corners ← luaL_checkudata stack 2 CV_META_CORNERS
  let count := cornerCount abi corners
  let winsize ← (luaL_checkinteger abi lib stack 3).map (toCInt abi)
  let criteria ← lcvL_toCriteria abi lib EPS ITER ((stackAt stack 4).getD .nil)
  pure ([], [.cvFindCornerSubPix img corners.payload count (cvSize winsize winsize)
    (cvSize (-1) (-1)) criteria])

/-- The model of `lcv_cv_DrawChessboardCorners`. -/
def lcv_cv_DrawChessboardCorners (abi : ABI) (lib : LuaLib) (stack : List LuaValue) :
    Except LuaError (List LuaValue × List NativeCall) := do
  let img ← lcvL_toCvArr stack 1
  let size ← lcvL_toCvSize abi lib stack 2
  let corners ← luaL_checkudata stack 3 CV_META_CORNERS
  let count := cornerCount abi corners
  pure ([], [.cvDrawChessboardCorners img size corners.payload count 1])

/-! ## Image and video functions -/

/-- The model of `lcv_iv_LoadImage`; `cvLoadImage` is the native loader. -/
def lcv_iv_LoadImage (abi : ABI) (lib : LuaLib) (cvLoadImage : String → Int → Nat)
    (stack : List LuaValue) : Except LuaError (List LuaValue) := do
  let filename ← luaL_checkstring lib stack 1
  let iscolor ← (luaL_optinteger abi lib stack 2 1).map (toCInt abi)
  let img := cvLoadImage filename iscolor
  pure [lcvL_pushimage abi img 1]

/-- The model of `LCV_NEW_GC(CvCapture, CV_META_CAPTURE)` followed by the
store `*cap = p`. -/
def newCapture (abi : ABI) (p : Nat) : Userdata :=
  let cap := lcvL_newuserdata abi CV_META_CAPTURE abi.sizeofPtr 1
  { cap with payload := .pointer p }

/-- The model of `lcv_iv_CaptureFromCAM`; `cvCaptureFromCAM` is the native
constructor. -/
def lcv_iv_CaptureFromCAM (abi : ABI) (lib : LuaLib) (cvCaptureFromCAM : Int → Nat)
    (stack : List LuaValue) : Except LuaError (List LuaValue) := do
  let index ← luaL_optint abi lib stack 1 (-1)
  pure [.userdata (newCapture abi (cvCaptureFromCAM index))]

/-- The model of `lcv_iv_CaptureFromFile`; `cvCaptureFromFile` is the native
constructor. -/
def lcv_iv_CaptureFromFile (abi : ABI) (lib : LuaLib) (cvCaptureFromFile : String → Nat)
    (stack : List LuaValue) : Except LuaError (List LuaValue) := do
  let filename ← luaL_checkstring lib stack 1
  pure [.userdata (newCapture abi (cvCaptureFromFile filename))]

/-- The model of `lcv_iv_QueryFrame`; `cvQueryFrame` is the native call. -/
def lcv_iv_QueryFrame (abi : ABI) (cvQueryFrame : Nat → Nat) (stack : List LuaValue) :
    Except LuaError (List LuaValue) := do
  let cap ← LCV_SELF stack CV_META_CAPTURE
  let img := cvQueryFrame (← cap.deref)
  pure [lcvL_pushimage abi img 0]

/-- The model of `lcv_iv_RetrieveFrame`; `cvRetrieveFrame` is the native call. -/
def lcv_iv_RetrieveFrame (abi : ABI) (cvRetrieveFrame : Nat → Int → Nat)
    (stack : List LuaValue) : Except LuaError (List LuaValue) := do
  let cap ← LCV_SELF stack CV_META_CAPTURE
  let img := cvRetrieveFrame (← cap.deref) 0
  pure [lcvL_pushimage abi img 0]

/-- The model of `lcv_iv___gc`: the native calls the finalizer makes. -/
def lcv_iv___gc (abi : ABI) (stack : List LuaValue) : Except LuaError (List NativeCall) := do
  let cap ← LCV_SELF stack CV_META_CAPTURE
  if (← lcvL_shouldRelease cap abi.sizeofPtr) ≠ 0 then
    pure [.cvReleaseCapture (← cap.deref)]
  else
    pure []

/-! ## Metatables -/

/-- The C functions that `luaopen_luacv` installs in a metatable. -/
inductive CFunction where
  | lcv_iv_GrabFrame | lcv_iv_RetrieveFrame | lcv_iv_QueryFrame
  | lcv_iv___gc | lcv_iv___index | lcv_iv___newindex
  deriving DecidableEq, Repr

/-- A field of a metatable: the metatable itself, or a C function. -/
inductive MetaField where
  | self
  | cfunction (f : CFunction)
  deriving DecidableEq, Repr

/-- A metatable, as the list of its fields. -/
abbrev Metatable := List (String × MetaField)

/-- Assignment of a field of a metatable. -/
def Metatable.setfield (mt : Metatable) (k : String) (v : MetaField) : Metatable :=
  (mt.filter (fun e => e.1 != k)) ++ [(k, v)]

/-- Lookup of a field of a metatable. -/
def Metatable.getfield (mt : Metatable) (k : String) : Option MetaField :=
  (mt.find? (fun e => e.1 == k)).map (fun e => e.2)

def cv_cap_methods : List (String × CFunction) :=
  [("GrabFrame", .lcv_iv_GrabFrame), ("RetrieveFrame", .lcv_iv_RetrieveFrame),
   ("QueryFrame", .lcv_iv_QueryFrame), ("__gc", .lcv_iv___gc),
   ("__index", .lcv_iv___index), ("__newindex", .lcv_iv___newindex)]

def cv_empty_methods : List (String × CFunction) := []

/-- The model of `luaL_register(L, NULL, methods)` on a metatable. -/
def luaL_register (mt : Metatable) (methods : List (String × CFunction)) : Metatable :=
  methods.foldl (fun t m => t.setfield m.1 (.cfunction m.2)) mt

/-- The model of `lcvL_newmeta`: the registry of named metatables gains a
metatable whose `__index` is itself, overridden by the methods. -/
def lcvL_newmeta (metas : List (String × Metatable)) (metaname : String)
    (methods : List (String × CFunction)) : List (String × Metatable) :=
  let mt : Metatable := []
  let mt := mt.setfield "__index" .self
  metas ++ [(metaname, luaL_register mt methods)]

/-- The metatables that `luaopen_luacv` registers. -/
def luaopen_luacv : List (String × Metatable) :=
  let metas := lcvL_newmeta [] CV_META_CAPTURE cv_cap_methods
  let metas := lcvL_newmeta metas CV_META_IMAGE cv_empty_methods
  lcvL_newmeta metas CV_META_CORNERS cv_empty_methods

/-- The metatable registered under a name (`luaL_getmetatable`). -/
def luaL_getmetatable (metas : List (String × Metatable)) (name : String) :
    Option Metatable :=
  (metas.find? (fun e => e.1 == name)).map (fun e => e.2)

/-- Finalization of an unreachable userdata by the collector of the host
runtime: the `__gc` field of its metatable, if there is one, is called once
with the userdata as its argument; the result is the native calls made. Of
the functions of the binding only `lcv_iv___gc` is written as a finalizer. -/
def finalize (abi : ABI) (metas : List (String × Metatable)) (u : Userdata) :
    Except LuaError (List NativeCall) :=
  match u.metaname.bind (luaL_getmetatable metas) with
  | none => .ok []
  | some mt =>
    match mt.getfield "__gc" with
    | some (.cfunction .lcv_iv___gc) => lcv_iv___gc abi [.userdata u]
    | some _ => .error .undefined
    | none => .ok []

/-! ## HighGUI functions: the trackbar table -/

def MAX_TRACKBARS : Nat := 24

/-- The model of `TrackbarEntry`; the field `L` is `none` for a null
`lua_State` pointer. -/
structure TrackbarEntry where
  L : Option Nat
  ref : Int
  val : Int
  deriving DecidableEq, Repr

/-- The state that `lcv_hg_CreateTrackbar` and `track` share: the static
array `trackbars`, the static counter `tb_count`, the references held by the
registry of the host runtime (reference `n` is entry `n - 1` of the list) and
the trackbars created in the native library so far. -/
structure TrackbarState where
  trackbars : List TrackbarEntry
  tb_count : Nat
  registry : List LuaValue
  native : List NativeCall

/-- The state at program start: static storage is zero-initialized. -/
def TrackbarState.init (registry : List LuaValue) : TrackbarState :=
  { trackbars := List.replicate MAX_TRACKBARS { L := none, ref := 0, val := 0 }
    tb_count := 0
    registry := registry
    native := [] }

def LUA_REFNIL : Int := -1

/-- The model of `luaL_ref(L, LUA_REGISTRYINDEX)`: the value on top of the
stack, the last of the list, is popped; `nil` gets the fixed reference
`LUA_REFNIL`, any other value is stored under a new reference. The binding
never calls `luaL_unref`, so no freed reference is reused. -/
def luaL_ref (registry : List LuaValue) (stack : List LuaValue) : Int × List LuaValue :=
  match stack.getLast? with
  | none => (LUA_REFNIL, registry)
  | some .nil => (LUA_REFNIL, registry)
  | some v => ((registry.length + 1 : Nat), registry ++ [v])

/-- The model of `lua_rawgeti(L, LUA_REGISTRYINDEX, ref)`. -/
def registryGet (registry : List LuaValue) (ref : Int) : LuaValue :=
  if 1 ≤ ref then (registry.get? (ref.toNat - 1)).getD .nil else .nil

/-- A call of a script value made through `lua_call`. -/
structure LuaCall where
  L : Nat
  callee : LuaValue
  args : List LuaValue

/-- The model of `track`: the calls into the script that it makes. The
trackers pass the slot numbers 1 to 24 as `trackbar`. -/
def track (s : TrackbarState) (trackbar : Nat) (pos : Int) : List LuaCall :=
  match s.trackbars.get? (trackbar - 1) with
  | none => []
  | some te =>
    match te.L with
    | none => []
    | some L => [{ L := L, callee := registryGet s.registry te.ref, args := [.number pos] }]

/-- The model of `tracker1` to `tracker24`, which `TRACKER(n)` defines. -/
def tracker (n : Nat) (s : TrackbarState) (pos : Int) : List LuaCall := track s n pos

/-- The table `trackers`, each callback named by its number. -/
def trackers : List Nat :=
  [1, 2, 3, 4, 5, 6, 7, 8, 9, 10, 11, 12, 13, 14, 15, 16, 17, 18, 19, 20, 21, 22, 23, 24]

/-- The model of `lcv_hg_CreateTrackbar`, called on the Lua state `L`: the
state of the trackbar table after the call, and what the call returns to the
script or raises. -/
def lcv_hg_CreateTrackbar (abi : ABI) (lib : LuaLib) (s : TrackbarState) (L : Nat)
    (stack : List LuaValue) : TrackbarState × Except LuaError (List LuaValue) :=
  if s.tb_count = MAX_TRACKBARS then
    (s, .error (.error "max number of trackbars (24) reached"))
  else
    let checked : Except LuaError (String × String × Int × Int) := do
      let tbName ← luaL_checkstring lib stack 1
      let wndName ← luaL_checkstring lib stack 2
      let val ← luaL_checkint abi lib stack 3
      let max ← luaL_checkint abi lib stack 4
      luaL_checktype stack 5 .LUA_TFUNCTION
      pure (tbName, wndName, val, max)
    match checked with
    | .error e => (s, .error e)
    | .ok (tbName, wndName, val, max) =>
      let (ref, registry) := luaL_ref s.registry stack
      let entry : TrackbarEntry := { L := some L, ref := ref, val := val }
      ({ trackbars := s.trackbars.set s.tb_count entry
         tb_count := s.tb_count + 1
         registry := registry
         native := s.native ++
           [.cvCreateTrackbar tbName wndName s.tb_count max (trackers.getD s.tb_count 0)] },
       .ok [])

/-- A sequence of calls of `lcv_hg_CreateTrackbar`, each given by the Lua
state it runs on and its argument stack; the result is the final state. -/
def runCreateTrackbars (abi : ABI) (lib : LuaLib) (s : TrackbarState) :
    List (Nat × List LuaValue) → TrackbarState
  | [] => s
  | c :: cs => runCreateTrackbars abi lib (lcv_hg_CreateTrackbar abi lib s c.1 c.2).1 cs

/-- Valid arguments of `CreateTrackbar`: two names, the initial value, the
maximum and the callback, followed by anything. -/
def ValidTrackbarArgs (stack : List LuaValue) : Prop :=
  ∃ tbName wndName val max f rest,
    stack = .string tbName :: .string wndName :: .number val :: .number max ::
      .function f :: rest

/-- The invariant of the trackbar table after `k` valid calls: the array
keeps its 24 entries, the counter is `min k 24`, and exactly the entries
below the counter are bound. -/
def TableInv (s : TrackbarState) (k : Nat) : Prop :=
  s.trackbars.length = MAX_TRACKBARS ∧ s.tb_count = min k MAX_TRACKBARS ∧
    ∀ j e, s.trackbars.get? j = some e → (e.L.isSome ↔ j < s.tb_count)

/-- The callback of a `CreateTrackbar` call: its fifth argument. -/
def callbackArg (stack : List LuaValue) : LuaValue := (stackAt stack 5).getD .nil

/-- Valid arguments of `CreateTrackbar` with nothing after the callback. -/
def FiveTrackbarArgs (stack : List LuaValue) : Prop :=
  ∃ tbName wndName val max f,
    stack = [.string tbName, .string wndName, .number val, .number max, .function f]

/-- The state of the trackbar table after the calls `done`, each with exactly
five arguments, starting from the registry `registry0`: call `i` is bound in
entry `i` with a reference of its own to its callback, the other entries are
still zero. -/
def DispatchInv (registry0 : List LuaValue) (done : List (Nat × List LuaValue))
    (s : TrackbarState) : Prop :=
  s.tb_count = done.length ∧ s.trackbars.length = MAX_TRACKBARS ∧
  s.registry = registry0 ++ done.map (fun c => callbackArg c.2) ∧
  (∀ i c, done.get? i = some c →
    ∃ val, s.trackbars.get? i =
      some { L := some c.1, ref := ((registry0.length + i + 1 : Nat) : Int), val := val }) ∧
  (∀ i, done.length ≤ i → i < MAX_TRACKBARS →
    s.trackbars.get? i = some { L := none, ref := 0, val := 0 })

/-- The assumption under which sizes are compared, for the one call that
`CreateImage` makes of the native constructor: that call yields an image, and
the image records the size it was created with. -/
def RecordsSizeAt (cvCreateImage : CvSize → IplDepth → Int → Nat) (cvGetSize : Nat → CvSize)
    (size : CvSize) (depth : IplDepth) (channels : Int) : Prop :=
  cvCreateImage size depth channels ≠ NULL ∧
    cvGetSize (cvCreateImage size depth channels) = size

/-! ## Concrete inputs used to instantiate the theorems -/

/-- A native constructor whose image pointer encodes the size requested. -/
def recordingCreate : CvSize → IplDepth → Int → Nat :=
  fun size _ _ => Encodable.encode (size.width, size.height) + 1

/-- The native accessor that goes with `recordingCreate`. -/
def recordingGetSize : Nat → CvSize :=
  fun p =>
    match (Encodable.decode (p - 1) : Option (Int × Int)) with
    | some (w, h) => { width := w, height := h }
    | none => { width := 0, height := 0 }

/-- A native constructor that fails, with the null pointer, on a size that is
not positive, and otherwise acts as `recordingCreate`. -/
def strictCreate : CvSize → IplDepth → Int → Nat :=
  fun size depth channels =>
    if 0 < size.width ∧ 0 < size.height then recordingCreate size depth channels else NULL

/-- A host library that parses no string as a number. -/
def plainLib : LuaLib := { str2d := fun _ => none, num2str := fun _ => "" }

/-- An argument stack of `CreateTrackbar` with exactly the five arguments. -/
def sampleTrackbarArgs : List LuaValue :=
  [.string "threshold", .string "window", .number 0, .number 255, .function 1]

/-- Twenty-five calls of `CreateTrackbar` on the Lua state 1. -/
def sampleCalls : List (Nat × List LuaValue) := List.replicate 25 (1, sampleTrackbarArgs)

/-- A call of `CreateTrackbar` that passes a sixth argument after the
callback `function 1`. -/
def sixTrackbarArgs : List LuaValue :=
  [.string "threshold", .string "window", .number 0, .number 255, .function 1, .function 2]

/-- A native detector that always finds the 54 corners of a 9 by 6 board. -/
def sampleDetect : Nat → CvSize → Int → ChessboardResult :=
  fun _ _ _ => { ret := 1, count := 54, corners := [] }

/-- The arguments of `FindChessboardCorners`: an image handle and the board
size 9 by 6. -/
def sampleBoardArgs : List LuaValue :=
  [lcvL_pushimage lp64 5 1, .table [.number 9, .number 6] []]

/-- The corner handle that `FindChessboardCorners` makes for 54 corners on
LP64: 432 bytes of points and the flag word. -/
def sampleCorners : Userdata :=
  { metaname := some CV_META_CORNERS
    len := 436
    payload := .corners []
    flagsOffset := 432
    flags := 1 }

/-! # Theorems -/

/-! ## The capacity of the trackbar table -/

theorem createTrackbar_full (abi : ABI) (lib : LuaLib) (s : TrackbarState) (L : Nat)
    (stack : List LuaValue) (h : s.tb_count = MAX_TRACKBARS) :
    lcv_hg_CreateTrackbar abi lib s L stack =
      (s, .error (.error "max number of trackbars (24) reached")) := by
  simp [lcv_hg_CreateTrackbar, h]

theorem createTrackbar_valid (abi : ABI) (lib : LuaLib) (s : TrackbarState) (L : Nat)
    (stack : List LuaValue) (hv : ValidTrackbarArgs stack) (h : s.tb_count ≠ MAX_TRACKBARS) :
    ∃ ref val registry native,
      lcv_hg_CreateTrackbar abi lib s L stack =
        ({ trackbars := s.trackbars.set s.tb_count { L := some L, ref := ref, val := val }
           tb_count := s.tb_count + 1
           registry := registry
           native := native }, .ok []) := by
  obtain ⟨tbName, wndName, val, max, f, rest, rfl⟩ := hv
  simp [lcv_hg_CreateTrackbar, h, luaL_checkstring, luaL_checkint, luaL_checkinteger,
    luaL_checktype, stackAt, lua_type, lua_isnumber, lua_tointeger, LuaValue.tonumber,
    LuaValue.type, luaL_typerror, bind, Except.bind, Except.map, pure, Except.pure]
  exact ⟨_, _, rfl⟩

theorem tableInv_init (registry : List LuaValue) : TableInv (.init registry) 0 := by
  refine ⟨by simp [TrackbarState.init], by simp [TrackbarState.init], ?_⟩
  intro j e h
  simp only [TrackbarState.init, List.get?_eq_getElem?, List.getElem?_replicate] at h
  split at h
  · cases h; simp [TrackbarState.init]
  · cases h

theorem tableInv_step (abi : ABI) (lib : LuaLib) (s : TrackbarState) (k L : Nat)
    (stack : List LuaValue) (hv : ValidTrackbarArgs stack) (hs : TableInv s k) :
    TableInv (lcv_hg_CreateTrackbar abi lib s L stack).1 (k + 1) := by
  obtain ⟨hlen, hcnt, hbound⟩ := hs
  by_cases h : s.tb_count = MAX_TRACKBARS
  · rw [createTrackbar_full abi lib s L stack h]
    refine ⟨hlen, ?_, hbound⟩
    simp only [MAX_TRACKBARS] at *
    omega
  · obtain ⟨ref, val, registry, native, heq⟩ := createTrackbar_valid abi lib s L stack hv h
    rw [heq]
    refine ⟨by simpa using hlen, ?_, ?_⟩
    · simp only [MAX_TRACKBARS] at *
      omega
    · intro j e hj
      simp only [List.get?_eq_getElem?, List.getElem?_set] at hj
      split at hj
      · split at hj
        · cases hj; simp; omega
        · cases hj
      · have := hbound j e (by simpa using hj)
        simp only at this ⊢
        rw [this]; omega

theorem tableInv_run (abi : ABI) (lib : LuaLib) (calls : List (Nat × List LuaValue))
    (hvalid : ∀ c ∈ calls, ValidTrackbarArgs c.2) (s : TrackbarState) (k : Nat)
    (hs : TableInv s k) :
    TableInv (runCreateTrackbars abi lib s calls) (k + calls.length) := by
  induction calls generalizing s k with
  | nil => simpa [runCreateTrackbars] using hs
  | cons c cs ih =>
    have hstep := tableInv_step abi lib s k c.1 c.2 (hvalid c (by simp)) hs
    have := ih (fun d hd => hvalid d (by simp [hd])) _ (k + 1) hstep
    simpa [runCreateTrackbars, Nat.add_assoc, Nat.add_comm 1] using this

/-- Claim C1. Starting from the empty trackbar table, in every sequence of
`CreateTrackbar` calls with valid arguments, call number `i` (counted from 0)
succeeds when `i < 24`, and when `24 ≤ i` it raises the error "max number of
trackbars (24) reached" and leaves the whole state as it was: the 24 bound
entries, the registry and the counter, which stays at 24. -/
theorem createTrackbar_capacity (abi : ABI) (lib : LuaLib) (registry : List LuaValue)
    (calls : List (Nat × List LuaValue))
    (hvalid : ∀ c ∈ calls, ValidTrackbarArgs c.2) (i : Nat) (c : Nat × List LuaValue)
    (hc : calls.get? i = some c) :
    let s := runCreateTrackbars abi lib (.init registry) (calls.take i)
    let r := lcv_hg_CreateTrackbar abi lib s c.1 c.2
    (i < MAX_TRACKBARS → r.2 = .ok [] ∧ r.1.tb_count = i + 1) ∧
    (MAX_TRACKBARS ≤ i →
      r.2 = .error (.error "max number of trackbars (24) reached") ∧ r.1 = s ∧
      s.tb_count = MAX_TRACKBARS ∧ s.trackbars.length = MAX_TRACKBARS ∧
      ∀ e ∈ s.trackbars, e.L.isSome) := by
  intro s r
  have hi : i < calls.length := by
    by_contra hcon
    rw [List.get?_eq_getElem?, List.getElem?_eq_none (by omega)] at hc
    cases hc
  have hinv : TableInv s (0 + (calls.take i).length) :=
    tableInv_run abi lib (calls.take i) (fun d hd => hvalid d (List.mem_of_mem_take hd))
      _ 0 (tableInv_init registry)
  have hlen : (calls.take i).length = i := by
    rw [List.length_take]; omega
  rw [hlen, Nat.zero_add] at hinv
  obtain ⟨hl, hcnt, hbound⟩ := hinv
  have hcv : ValidTrackbarArgs c.2 := hvalid c (List.get?_mem hc)
  constructor
  · intro hlt
    have hne : s.tb_count ≠ MAX_TRACKBARS := by
      simp only [MAX_TRACKBARS] at *; omega
    obtain ⟨ref, val, reg, native, heq⟩ := createTrackbar_valid abi lib s c.1 c.2 hcv hne
    have hr : r = _ := heq
    rw [hr]
    refine ⟨rfl, ?_⟩
    simp only [MAX_TRACKBARS] at *; omega
  · intro hge
    have hfull : s.tb_count = MAX_TRACKBARS := by
      simp only [MAX_TRACKBARS] at *; omega
    have hr : r = _ := createTrackbar_full abi lib s c.1 c.2 hfull
    rw [hr]
    refine ⟨rfl, rfl, hfull, hl, ?_⟩
    intro e he
    obtain ⟨j, hj⟩ := List.getElem?_of_mem he
    have hjlt : j < s.trackbars.length := by
      by_contra hcon
      rw [List.getElem?_eq_none (by omega)] at hj
      cases hj
    exact (hbound j e (by simpa using hj)).mpr (by omega)

theorem sampleCalls_valid : ∀ c ∈ sampleCalls, ValidTrackbarArgs c.2 := by
  intro c hc
  rw [sampleCalls, List.mem_replicate] at hc
  rw [hc.2]
  exact ⟨_, _, _, _, _, _, rfl⟩

/-- Witness of C1: the twenty-fifth of twenty-five valid calls. -/
theorem createTrackbar_capacity_witness :
    (∀ c ∈ sampleCalls, ValidTrackbarArgs c.2) ∧
    sampleCalls.get? 24 = some (1, sampleTrackbarArgs) ∧
    (let s := runCreateTrackbars lp64 plainLib (.init []) (sampleCalls.take 24)
     let r := lcv_hg_CreateTrackbar lp64 plainLib s (1, sampleTrackbarArgs).1
       (1, sampleTrackbarArgs).2
     (24 < MAX_TRACKBARS → r.2 = .ok [] ∧ r.1.tb_count = 24 + 1) ∧
     (MAX_TRACKBARS ≤ 24 →
       r.2 = .error (.error "max number of trackbars (24) reached") ∧ r.1 = s ∧
       s.tb_count = MAX_TRACKBARS ∧ s.trackbars.length = MAX_TRACKBARS ∧
       ∀ e ∈ s.trackbars, e.L.isSome)) :=
  ⟨sampleCalls_valid, by simp [sampleCalls],
    createTrackbar_capacity lp64 plainLib [] sampleCalls sampleCalls_valid 24
      (1, sampleTrackbarArgs) (by simp [sampleCalls])⟩

/-! ## Handles and null pointers -/

theorem pushimage_null (abi : ABI) (should_gc : Int) :
    lcvL_pushimage abi NULL should_gc = .nil := by
  simp [lcvL_pushimage]

theorem pushimage_nonnull (abi : ABI) (img : Nat) (should_gc : Int) (h : img ≠ NULL) :
    lcvL_pushimage abi img should_gc = .userdata (newImage abi img should_gc) := by
  simp [lcvL_pushimage, h]

/-- Claim C2, the code at the failing input. When the native constructor
yields the null pointer, `CaptureFromCAM` called without arguments and
`CaptureFromFile` called with a file name both return a capture handle, not
`nil`, and the payload of that handle is the null pointer; `lcvL_pushimage`
returns `nil` for the same pointer. -/
theorem capture_null_is_handle (abi : ABI) (lib : LuaLib) (filename : String) :
    lcv_iv_CaptureFromCAM abi lib (fun _ => NULL) [] = .ok [.userdata (newCapture abi NULL)] ∧
    lcv_iv_CaptureFromFile abi lib (fun _ => NULL) [.string filename] =
      .ok [.userdata (newCapture abi NULL)] ∧
    (newCapture abi NULL).metaname = some CV_META_CAPTURE ∧
    (newCapture abi NULL).payload = .pointer NULL ∧
    ∀ should_gc, lcvL_pushimage abi NULL should_gc = .nil := by
  refine ⟨?_, ?_, rfl, rfl, pushimage_null abi⟩
  · simp [lcv_iv_CaptureFromCAM, luaL_optint, luaL_optinteger, lua_isnoneornil, stackAt,
      Except.map, bind, Except.bind, pure, Except.pure]
  · simp [lcv_iv_CaptureFromFile, luaL_checkstring, stackAt, bind, Except.bind, pure,
      Except.pure]

/-! ## Conversion of a script value to an image pointer -/

/-- Claim C3, counterexample. A table presented where an image handle is
expected does not raise an error: `lcvL_toCvArr` returns normally, with the
null pointer. -/
theorem toCvArr_table_returns :
    lcvL_toCvArr [.table [] []] 1 = .ok NULL ∧
    ¬ ∃ e, lcvL_toCvArr [.table [] []] 1 = .error e := by
  have h : lcvL_toCvArr [.table [] []] 1 = .ok NULL := by
    simp [lcvL_toCvArr, lua_type, stackAt, LuaValue.type]
  refine ⟨h, ?_⟩
  rintro ⟨e, he⟩
  rw [h] at he
  cases he

theorem toCvArr_image (stack : List LuaValue) (idx : Nat) (abi : ABI) (img : Nat)
    (should_gc : Int) (himg : img ≠ NULL)
    (hs : stackAt stack idx = some (lcvL_pushimage abi img should_gc)) :
    lcvL_toCvArr stack idx = .ok img := by
  rw [pushimage_nonnull abi img should_gc himg] at hs
  simp [lcvL_toCvArr, lua_type, hs, LuaValue.type, LCV_GET, luaL_checkudata, newImage,
    lcvL_newuserdata, Userdata.deref, bind, Except.bind]

/-- Claim C3, amended. For the value at `idx`: an image handle made by
`lcvL_pushimage` converts to its native pointer; a handle of another kind
raises a type error; a table converts to the null pointer without an error;
every other value, and an absent one, raises a type error. The conversion
returns normally only for an image handle and for a table. -/
theorem toCvArr_cases (stack : List LuaValue) (idx : Nat) :
    (∀ abi img should_gc, img ≠ NULL →
      stackAt stack idx = some (lcvL_pushimage abi img should_gc) →
      lcvL_toCvArr stack idx = .ok img) ∧
    (∀ u, stackAt stack idx = some (.userdata u) → u.metaname ≠ some CV_META_IMAGE →
      lcvL_toCvArr stack idx = .error (.typerror idx CV_META_IMAGE)) ∧
    (∀ arr hash, stackAt stack idx = some (.table arr hash) →
      lcvL_toCvArr stack idx = .ok NULL) ∧
    (∀ v, stackAt stack idx = some v → v.type ≠ .LUA_TUSERDATA → v.type ≠ .LUA_TTABLE →
      lcvL_toCvArr stack idx = .error (.typerror idx "table/userdata")) ∧
    (stackAt stack idx = none →
      lcvL_toCvArr stack idx = .error (.typerror idx "table/userdata")) ∧
    ((∃ p, lcvL_toCvArr stack idx = .ok p) →
      (∃ u, stackAt stack idx = some (.userdata u) ∧ u.metaname = some CV_META_IMAGE) ∨
      (∃ arr hash, stackAt stack idx = some (.table arr hash))) := by
  refine ⟨?_, ?_, ?_, ?_, ?_, ?_⟩
  · intro abi img gc himg hs
    exact toCvArr_image stack idx abi img gc himg hs
  · intro u hs hu
    simp [lcvL_toCvArr, lua_type, hs, LuaValue.type, LCV_GET, luaL_checkudata, hu,
      luaL_typerror, bind, Except.bind]
  · intro arr hash hs
    simp [lcvL_toCvArr, lua_type, hs, LuaValue.type]
  · intro v hs h1 h2
    cases v <;> simp_all [lcvL_toCvArr, lua_type, LuaValue.type, luaL_typerror]
  · intro hs
    simp [lcvL_toCvArr, lua_type, hs, luaL_typerror]
  · rintro ⟨p, hp⟩
    cases hs : stackAt stack idx with
    | none => simp [lcvL_toCvArr, lua_type, hs, luaL_typerror] at hp
    | some v =>
      cases v with
      | userdata u =>
        left
        refine ⟨u, rfl, ?_⟩
        by_contra hu
        simp [lcvL_toCvArr, lua_type, hs, LuaValue.type, LCV_GET, luaL_checkudata, hu,
          luaL_typerror, bind, Except.bind] at hp
      | table arr hash => exact Or.inr ⟨arr, hash, rfl⟩
      | _ => simp [lcvL_toCvArr, lua_type, hs, LuaValue.type, luaL_typerror] at hp

/-- Witness of the amended C3: the image handle for the pointer 5 converts
to 5. -/
theorem toCvArr_cases_witness :
    lcvL_toCvArr [lcvL_pushimage lp64 5 1] 1 = .ok 5 :=
  (toCvArr_cases [lcvL_pushimage lp64 5 1] 1).1 lp64 5 1 (by decide) rfl

/-! ## Finalization -/

theorem luaopen_luacv_eq :
    luaopen_luacv =
      [(CV_META_CAPTURE,
        [("GrabFrame", .cfunction .lcv_iv_GrabFrame),
         ("RetrieveFrame", .cfunction .lcv_iv_RetrieveFrame),
         ("QueryFrame", .cfunction .lcv_iv_QueryFrame),
         ("__gc", .cfunction .lcv_iv___gc),
         ("__index", .cfunction .lcv_iv___index),
         ("__newindex", .cfunction .lcv_iv___newindex)]),
       (CV_META_IMAGE, [("__index", .self)]),
       (CV_META_CORNERS, [("__index", .self)])] := by
  decide

theorem finalize_capture (abi : ABI) (u : Userdata) (h : u.metaname = some CV_META_CAPTURE) :
    finalize abi luaopen_luacv u = lcv_iv___gc abi [.userdata u] := by
  simp [finalize, h, luaopen_luacv_eq, luaL_getmetatable, Metatable.getfield, CV_META_CAPTURE]

theorem finalize_no_gc (abi : ABI) (u : Userdata)
    (h : u.metaname ≠ some CV_META_CAPTURE) : finalize abi luaopen_luacv u = .ok [] := by
  cases hm : u.metaname with
  | none => simp [finalize, hm]
  | some name =>
    have hne : name ≠ "lcvCapture" := by
      intro hcon; apply h; rw [hm, hcon]; rfl
    by_cases h1 : name = "lcvImage"
    · subst h1
      simp [finalize, hm, luaopen_luacv_eq, luaL_getmetatable, Metatable.getfield,
        CV_META_CAPTURE, CV_META_IMAGE, CV_META_CORNERS, List.find?]
    · by_cases h2 : name = "lcvCorners"
      · subst h2
        simp [finalize, hm, luaopen_luacv_eq, luaL_getmetatable, Metatable.getfield,
          CV_META_CAPTURE, CV_META_IMAGE, CV_META_CORNERS, List.find?]
      · have e1 : ("lcvCapture" == name) = false := by simpa using fun h => hne h.symm
        have e2 : ("lcvImage" == name) = false := by simpa using fun h => h1 h.symm
        have e3 : ("lcvCorners" == name) = false := by simpa using fun h => h2 h.symm
        simp [finalize, hm, luaopen_luacv_eq, luaL_getmetatable,
          CV_META_CAPTURE, CV_META_IMAGE, CV_META_CORNERS, List.find?, e1, e2, e3]

theorem gc_capture (abi : ABI) (p : Nat) (flags : Int) :
    lcv_iv___gc abi [.userdata { newCapture abi p with flags := flags }] =
      .ok (if Int.land flags LCV_FLAG_RELEASE ≠ 0 then [.cvReleaseCapture p] else []) := by
  simp only [lcv_iv___gc, LCV_SELF, LCV_GET, luaL_checkudata, stackAt, newCapture,
    lcvL_newuserdata, lcvL_shouldRelease, Userdata.deref, bind, Except.bind, pure,
    Except.pure]
  simp
  split <;> simp_all

theorem gc_flag_zero (abi : ABI) (u : Userdata) (calls : List NativeCall) (h : u.flags = 0)
    (hc : lcv_iv___gc abi [.userdata u] = .ok calls) : calls = [] := by
  have hland : Int.land 0 LCV_FLAG_RELEASE = 0 := by decide
  by_cases hm : u.metaname = some CV_META_CAPTURE
  · by_cases ho : abi.sizeofPtr = u.flagsOffset
    · simp [lcv_iv___gc, LCV_SELF, LCV_GET, luaL_checkudata, stackAt, lcvL_shouldRelease,
        bind, Except.bind, pure, Except.pure, h, hm, ho, hland] at hc
      exact hc
    · simp [lcv_iv___gc, LCV_SELF, LCV_GET, luaL_checkudata, stackAt, lcvL_shouldRelease,
        bind, Except.bind, pure, Except.pure, h, hm, ho] at hc
  · simp [lcv_iv___gc, LCV_SELF, LCV_GET, luaL_checkudata, stackAt, luaL_typerror,
      bind, Except.bind, hm] at hc

theorem finalize_flag_zero (abi : ABI) (u : Userdata) (calls : List NativeCall)
    (h : u.flags = 0) (hc : finalize abi luaopen_luacv u = .ok calls) : calls = [] := by
  by_cases hm : u.metaname = some CV_META_CAPTURE
  · rw [finalize_capture abi u hm] at hc
    exact gc_flag_zero abi u calls h hc
  · rw [finalize_no_gc abi u hm] at hc
    cases hc
    rfl

theorem queryFrame_flags (abi : ABI) (cvQueryFrame : Nat → Nat) (stack vs : List LuaValue)
    (h : lcv_iv_QueryFrame abi cvQueryFrame stack = .ok vs) :
    ∃ img, vs = [lcvL_pushimage abi img 0] := by
  simp only [lcv_iv_QueryFrame, bind, Except.bind, pure, Except.pure] at h
  split at h
  · cases h
  · split at h
    · cases h
    · cases h
      exact ⟨_, rfl⟩

theorem retrieveFrame_flags (abi : ABI) (cvRetrieveFrame : Nat → Int → Nat)
    (stack vs : List LuaValue)
    (h : lcv_iv_RetrieveFrame abi cvRetrieveFrame stack = .ok vs) :
    ∃ img, vs = [lcvL_pushimage abi img 0] := by
  simp only [lcv_iv_RetrieveFrame, bind, Except.bind, pure, Except.pure] at h
  split at h
  · cases h
  · split at h
    · cases h
    · cases h
      exact ⟨_, rfl⟩

theorem pushimage_flags (abi : ABI) (img : Nat) (should_gc : Int) (u : Userdata)
    (h : lcvL_pushimage abi img should_gc = .userdata u) :
    u = newImage abi img should_gc := by
  unfold lcvL_pushimage at h
  split at h
  · cases h
  · cases h; rfl

/-- Claim C4, the code at the failing input. `CreateImage` on a 2 by 2 size
returns an image handle tagged owns-resource = true, and finalizing an image
handle with that tag makes no native call at all: the image metatable has no
`__gc`. A capture handle with the same tag is released once. -/
theorem image_handle_not_released (abi : ABI) (img p : Nat) :
    lcv_cv_CreateImage lp64 plainLib (fun _ _ _ => 7) [.table [.number 2, .number 2] []] =
      .ok [.userdata (newImage lp64 7 1)] ∧
    (newImage abi img 1).flags = 1 ∧
    finalize abi luaopen_luacv (newImage abi img 1) = .ok [] ∧
    finalize abi luaopen_luacv (newCapture abi p) = .ok [.cvReleaseCapture p] := by
  refine ⟨?_, rfl, ?_, ?_⟩
  · have hidx : findOption 2 "8u" IMG_depth_names 0 = .ok 0 := by
      simp [findOption, IMG_depth_names]
    simp [lcv_cv_CreateImage, lcvL_toCvSize, luaL_checktype, lua_type, stackAt, LuaValue.type,
      luaL_checkoption, lua_isnoneornil, luaL_optinteger, hidx,
      lcvL_pushimage, NULL, Except.map, bind, Except.bind, pure, Except.pure]
  · exact finalize_no_gc abi _ (by simp [newImage, lcvL_newuserdata, CV_META_IMAGE, CV_META_CAPTURE])
  · rw [finalize_capture abi _ rfl]
    exact gc_capture abi p 1

/-- Claim C5. For a handle created with owns-resource = false, finalization
performs no native release: the flag that `lcvL_newuserdata` writes is the
flag that `lcvL_shouldRelease` reads back at the same size (0 gives 0, 1
gives 1); every value returned by `QueryFrame` and `RetrieveFrame` is `nil`
or an image handle with flag 0; the finalizer `lcv_iv___gc`, and finalization
through the registered metatables, make no native call on a handle whose flag
is 0, and return normally with no call on the frames and on a capture handle
with flag 0. -/
theorem unowned_handle_not_released (abi : ABI) :
    (∀ metaname size,
      lcvL_shouldRelease (lcvL_newuserdata abi metaname size 0) size = .ok 0 ∧
      lcvL_shouldRelease (lcvL_newuserdata abi metaname size 1) size = .ok 1) ∧
    (∀ cvQueryFrame stack vs, lcv_iv_QueryFrame abi cvQueryFrame stack = .ok vs →
      ∀ u, .userdata u ∈ vs → u.flags = 0 ∧ u.metaname = some CV_META_IMAGE) ∧
    (∀ cvRetrieveFrame stack vs, lcv_iv_RetrieveFrame abi cvRetrieveFrame stack = .ok vs →
      ∀ u, .userdata u ∈ vs → u.flags = 0 ∧ u.metaname = some CV_META_IMAGE) ∧
    (∀ u calls, u.flags = 0 → lcv_iv___gc abi [.userdata u] = .ok calls → calls = []) ∧
    (∀ u calls, u.flags = 0 → finalize abi luaopen_luacv u = .ok calls → calls = []) ∧
    (∀ img, finalize abi luaopen_luacv (newImage abi img 0) = .ok []) ∧
    (∀ p, lcv_iv___gc abi [.userdata { newCapture abi p with flags := 0 }] = .ok []) := by
  refine ⟨?_, ?_, ?_, ?_, ?_, ?_, ?_⟩
  · intro metaname size
    constructor <;> simp [lcvL_shouldRelease, lcvL_newuserdata] <;> decide
  · intro q stack vs h u hu
    obtain ⟨img, rfl⟩ := queryFrame_flags abi q stack vs h
    rw [List.mem_singleton] at hu
    rw [pushimage_flags abi img 0 u hu.symm]
    exact ⟨rfl, rfl⟩
  · intro q stack vs h u hu
    obtain ⟨img, rfl⟩ := retrieveFrame_flags abi q stack vs h
    rw [List.mem_singleton] at hu
    rw [pushimage_flags abi img 0 u hu.symm]
    exact ⟨rfl, rfl⟩
  · intro u calls h hc
    exact gc_flag_zero abi u calls h hc
  · intro u calls h hc
    exact finalize_flag_zero abi u calls h hc
  · intro img
    exact finalize_no_gc abi _ (by simp [newImage, lcvL_newuserdata, CV_META_IMAGE, CV_META_CAPTURE])
  · intro p
    exact gc_capture abi p 0

/-! ## Termination criteria -/

theorem isnil_eq_false_iff (v : LuaValue) : v.isnil = false ↔ v ≠ .nil := by
  cases v <;> simp [LuaValue.isnil]

theorem toCriteria_table (abi : ABI) (lib : LuaLib) (EPS ITER : Nat)
    (arr : List LuaValue) (hash : List (String × LuaValue)) :
    lcvL_toCriteria abi lib EPS ITER (.table arr hash) =
      .ok
        { type :=
            (if (hashGet hash "eps").isnil then 0 else EPS) |||
              (if (hashGet hash "iter").isnil then 0 else ITER)
          max_iter :=
            if (hashGet hash "iter").isnil then 0
            else toCInt abi ((hashGet hash "iter").tointeger abi lib)
          epsilon :=
            if (hashGet hash "eps").isnil then 0
            else (((hashGet hash "eps").tointeger abi lib : Int) : Rat) } := by
  cases he : (hashGet hash "eps").isnil <;> cases hi : (hashGet hash "iter").isnil <;>
    simp [lcvL_toCriteria, lua_getfield, bind, Except.bind, pure, Except.pure, he, hi]

theorem isnil_eq_true_iff (v : LuaValue) : v.isnil = true ↔ v = .nil := by
  cases v <;> simp [LuaValue.isnil]

theorem flag_bits (EPS ITER : Nat) (hE : EPS ≠ 0) (hI : ITER ≠ 0) (hd : EPS &&& ITER = 0) :
    ((EPS ||| ITER) &&& EPS = EPS) ∧ ((EPS ||| ITER) &&& ITER = ITER) ∧
    (ITER &&& EPS ≠ EPS) ∧ (EPS &&& ITER ≠ ITER) := by
  have hd2 : ITER &&& EPS = 0 := by rw [Nat.and_comm]; exact hd
  refine ⟨?_, ?_, ?_, ?_⟩
  · rw [Nat.and_comm, Nat.and_or_distrib_left, Nat.and_self, hd, Nat.or_zero]
  · rw [Nat.and_comm, Nat.and_or_distrib_left, Nat.and_self, hd2, Nat.zero_or]
  · rw [hd2]; exact fun h => hE h.symm
  · rw [hd]; exact fun h => hI h.symm

/-- Claim C8. For every options table and for flag values `EPS` and `ITER`
that are nonzero and share no bit, `lcvL_toCriteria` returns criteria whose
type has the EPS flag set exactly when the field `eps` is not nil and the
ITER flag set exactly when the field `iter` is not nil, with no bit outside
the two flags; with both fields the type is `EPS ||| ITER`, and with neither
the criteria are type 0, max_iter 0 and epsilon 0. -/
theorem toCriteria_type_flags (abi : ABI) (lib : LuaLib) (EPS ITER : Nat)
    (hE : EPS ≠ 0) (hI : ITER ≠ 0) (hd : EPS &&& ITER = 0)
    (arr : List LuaValue) (hash : List (String × LuaValue)) :
    ∃ c, lcvL_toCriteria abi lib EPS ITER (.table arr hash) = .ok c ∧
      (c.type &&& EPS = EPS ↔ hashGet hash "eps" ≠ .nil) ∧
      (c.type &&& ITER = ITER ↔ hashGet hash "iter" ≠ .nil) ∧
      c.type &&& (EPS ||| ITER) = c.type ∧
      (hashGet hash "eps" ≠ .nil → hashGet hash "iter" ≠ .nil → c.type = EPS ||| ITER) ∧
      (hashGet hash "eps" = .nil → hashGet hash "iter" = .nil →
        c = { type := 0, max_iter := 0, epsilon := 0 }) := by
  classical
  obtain ⟨h1, h2, h3, h4⟩ := flag_bits EPS ITER hE hI hd
  have hd2 : ITER &&& EPS = 0 := by rw [Nat.and_comm]; exact hd
  refine ⟨_, toCriteria_table abi lib EPS ITER arr hash, ?_⟩
  cases he : (hashGet hash "eps").isnil <;> cases hi : (hashGet hash "iter").isnil
  · have he2 := (isnil_eq_false_iff _).mp he
    have hi2 := (isnil_eq_false_iff _).mp hi
    simp [he, hi, he2, hi2, h1, h2, Nat.and_self]
  · have he2 := (isnil_eq_false_iff _).mp he
    have hi2 := (isnil_eq_true_iff _).mp hi
    simp [he, hi, he2, hi2, h4, hd, Nat.and_or_distrib_left, hI.symm]
  · have he2 := (isnil_eq_true_iff _).mp he
    have hi2 := (isnil_eq_false_iff _).mp hi
    simp [he, hi, he2, hi2, h3, hd2, Nat.and_or_distrib_left, hE.symm]
  · have he2 := (isnil_eq_true_iff _).mp he
    have hi2 := (isnil_eq_true_iff _).mp hi
    simp [he, hi, he2, hi2, hE.symm, hI.symm]

/-- Witness of C8: the flag values 2 and 1 of the OpenCV headers, and a
table with both fields. -/
theorem toCriteria_type_flags_witness :
    (2 : Nat) ≠ 0 ∧ (1 : Nat) ≠ 0 ∧ (2 : Nat) &&& 1 = 0 ∧
    ∃ c, lcvL_toCriteria lp64 plainLib 2 1
        (.table [] [("eps", .number 3), ("iter", .number 30)]) = .ok c ∧
      (c.type &&& 2 = 2 ↔
        hashGet [("eps", .number 3), ("iter", .number 30)] "eps" ≠ .nil) ∧
      (c.type &&& 1 = 1 ↔
        hashGet [("eps", .number 3), ("iter", .number 30)] "iter" ≠ .nil) ∧
      c.type &&& (2 ||| 1) = c.type ∧
      (hashGet [("eps", .number 3), ("iter", .number 30)] "eps" ≠ .nil →
        hashGet [("eps", .number 3), ("iter", .number 30)] "iter" ≠ .nil →
        c.type = 2 ||| 1) ∧
      (hashGet [("eps", .number 3), ("iter", .number 30)] "eps" = .nil →
        hashGet [("eps", .number 3), ("iter", .number 30)] "iter" = .nil →
        c = { type := 0, max_iter := 0, epsilon := 0 }) :=
  ⟨by decide, by decide, by decide,
    toCriteria_type_flags lp64 plainLib 2 1 (by decide) (by decide) (by decide) []
      [("eps", .number 3), ("iter", .number 30)]⟩

theorem truncRat_hundredth : truncRat (1 / 100) = 0 := by
  have h1 : ((1 : Rat) / 100).num = 1 := by norm_num
  have h2 : ((1 : Rat) / 100).den = 100 := by norm_num
  rw [truncRat, h1, h2]
  decide

theorem truncRat_intCast (z : Int) : truncRat (z : Rat) = z := by
  rw [truncRat, Rat.num_intCast, Rat.den_intCast]
  exact Int.tdiv_one z

theorem toPtrdiff_lp64 (z : Int) (h0 : -2 ^ 63 ≤ z) (h1 : z < 2 ^ 63) :
    toPtrdiff lp64 z = z := by
  simp only [toPtrdiff, wrapSigned, lp64]
  norm_num at h0 h1 ⊢
  omega

theorem toCInt_lp64 (z : Int) (h0 : INT_MIN lp64 ≤ z) (h1 : z ≤ INT_MAX lp64) :
    toCInt lp64 z = z := by
  simp only [toCInt, wrapSigned, lp64, INT_MIN, INT_MAX] at *
  norm_num at h0 h1 ⊢
  omega

theorem tointeger_intCast_lp64 (lib : LuaLib) (z : Int) (h0 : INT_MIN lp64 ≤ z)
    (h1 : z ≤ INT_MAX lp64) :
    toCInt lp64 ((LuaValue.number (z : Rat)).tointeger lp64 lib) = z := by
  have h2 : toPtrdiff lp64 z = z := by
    apply toPtrdiff_lp64 <;> simp only [lp64, INT_MIN, INT_MAX] at h0 h1 <;>
      norm_num at h0 h1 ⊢ <;> omega
  simp only [LuaValue.tointeger, LuaValue.tonumber, truncRat_intCast, h2]
  exact toCInt_lp64 z h0 h1

/-- Claim C9, the code at the failing input. For the options table
`{eps = 0.01}` the epsilon of the criteria that `lcvL_toCriteria` returns is
0, not 0.01: the field is read with `lua_tointeger`. An integer `iter` in the
range of `int`, here 30, is returned as `max_iter`. -/
theorem toCriteria_eps_truncated (lib : LuaLib) (EPS ITER : Nat) :
    lcvL_toCriteria lp64 lib EPS ITER (.table [] [("eps", .number (1 / 100))]) =
      .ok { type := EPS, max_iter := 0, epsilon := 0 } ∧
    lcvL_toCriteria lp64 lib EPS ITER
        (.table [] [("eps", .number (1 / 100)), ("iter", .number 30)]) =
      .ok { type := EPS ||| ITER, max_iter := 30, epsilon := 0 } ∧
    (0 : Rat) ≠ 1 / 100 := by
  have hp : toPtrdiff lp64 0 = 0 := by decide
  have h30 : toCInt lp64 ((LuaValue.number ((30 : Int) : Rat)).tointeger lp64 lib) = 30 :=
    tointeger_intCast_lp64 lib 30 (by decide) (by decide)
  have h30b : ((30 : Int) : Rat) = 30 := by norm_num
  rw [h30b] at h30
  have h100 : truncRat (100⁻¹ : Rat) = 0 := by
    rw [← one_div]; exact truncRat_hundredth
  refine ⟨?_, ?_, by norm_num⟩
  · rw [toCriteria_table]
    simp [hashGet, List.find?, LuaValue.isnil, LuaValue.tointeger, LuaValue.tonumber,
      h100, hp]
  · rw [toCriteria_table]
    simp [hashGet, List.find?, LuaValue.isnil, h30]
    simp [LuaValue.tointeger, LuaValue.tonumber, h100, hp]

/-! ## The corner count recovered from a corner handle -/

theorem corners_len_lp64 (n : Int) (h0 : 0 ≤ n) (h1 : n ≤ INT_MAX lp64) (should_gc : Int) :
    lua_objlen (lcvL_newuserdata lp64 CV_META_CORNERS
      (toSizeT lp64 (intToSizeT lp64 n * lp64.sizeofPoint)) should_gc) = 8 * n.toNat + 4 := by
  simp only [lua_objlen, lcvL_newuserdata, toSizeT, intToSizeT, lp64, INT_MAX] at *
  norm_num at h1 ⊢
  omega

theorem cornerCount_of_len (u : Userdata) (n : Int) (h0 : 0 ≤ n) (h1 : n ≤ INT_MAX lp64)
    (hlen : lua_objlen u = 8 * n.toNat + 4) : cornerCount lp64 u = n := by
  have hdiv : lua_objlen u / lp64.sizeofPoint = n.toNat := by
    rw [hlen]; simp only [lp64]; omega
  rw [cornerCount, hdiv]
  have hcast : ((n.toNat : Nat) : Int) = n := Int.toNat_of_nonneg h0
  rw [hcast]
  exact toCInt_lp64 n (by simp only [INT_MIN, lp64]; norm_num; omega) h1

theorem toCInt_lp64_range (z : Int) :
    INT_MIN lp64 ≤ toCInt lp64 z ∧ toCInt lp64 z ≤ INT_MAX lp64 := by
  simp only [toCInt, wrapSigned, lp64, INT_MIN, INT_MAX]
  norm_num
  omega

theorem findChessboardCorners_handle (lib : LuaLib)
    (detect : Nat → CvSize → Int → ChessboardResult) (stack : List LuaValue)
    (u : Userdata) (n : Int)
    (h : lcv_cv_FindChessboardCorners lp64 lib detect stack =
      .ok [.userdata u, .number (n : Rat)]) :
    n ≤ INT_MAX lp64 ∧
    ∃ pts, u = { lcvL_newuserdata lp64 CV_META_CORNERS
      (toSizeT lp64 (intToSizeT lp64 n * lp64.sizeofPoint)) 1 with payload := .corners pts } := by
  simp only [lcv_cv_FindChessboardCorners, bind, Except.bind, pure, Except.pure] at h
  split at h
  · cases h
  · split at h
    · cases h
    · split at h
      · simp at h
      · simp only [Except.ok.injEq, List.cons.injEq, LuaValue.userdata.injEq,
          LuaValue.number.injEq, Int.cast_inj, and_true] at h
        obtain ⟨hu, hn⟩ := h
        rw [← hu, ← hn]
        exact ⟨(toCInt_lp64_range _).2, _, rfl⟩

theorem findCornerSubPix_count (lib : LuaLib) (EPS ITER : Nat) (stack : List LuaValue)
    (u : Userdata) (r : List LuaValue × List NativeCall)
    (hu : stackAt stack 2 = some (.userdata u))
    (h : lcv_cv_FindCornerSubPix lp64 lib EPS ITER stack = .ok r) :
    ∃ img win zeroZone criteria,
      r.2 = [.cvFindCornerSubPix img u.payload (cornerCount lp64 u) win zeroZone criteria] := by
  simp only [lcv_cv_FindCornerSubPix, luaL_checkudata, hu, bind, Except.bind, pure,
    Except.pure] at h
  split at h
  · cases h
  · split at h
    · cases h
    · rename_i heq
      split at heq
      · cases heq
        split at h
        · cases h
        · split at h
          · cases h
          · cases h
            exact ⟨_, _, _, _, rfl⟩
      · cases heq

theorem drawChessboardCorners_count (lib : LuaLib) (stack : List LuaValue)
    (u : Userdata) (r : List LuaValue × List NativeCall)
    (hu : stackAt stack 3 = some (.userdata u))
    (h : lcv_cv_DrawChessboardCorners lp64 lib stack = .ok r) :
    ∃ img size,
      r.2 = [.cvDrawChessboardCorners img size u.payload (cornerCount lp64 u) 1] := by
  simp only [lcv_cv_DrawChessboardCorners, luaL_checkudata, hu, bind, Except.bind, pure,
    Except.pure] at h
  split at h
  · cases h
  · split at h
    · cases h
    · split at h
      · cases h
      · rename_i heq
        split at heq
        · cases heq
          cases h
          exact ⟨_, _, rfl⟩
        · cases heq

theorem findCornerSubPix_eval (lib : LuaLib) (EPS ITER : Nat) (u : Userdata)
    (hu : u.metaname = some CV_META_CORNERS) (p : Nat) (should_gc : Int) (hp : p ≠ NULL)
    (win : Rat) (arr : List LuaValue) (hash : List (String × LuaValue)) :
    ∃ criteria,
      lcvL_toCriteria lp64 lib EPS ITER (.table arr hash) = .ok criteria ∧
      lcv_cv_FindCornerSubPix lp64 lib EPS ITER
          [lcvL_pushimage lp64 p should_gc, .userdata u, .number win, .table arr hash] =
        .ok ([], [.cvFindCornerSubPix p u.payload (cornerCount lp64 u)
          (cvSize (toCInt lp64 ((LuaValue.number win).tointeger lp64 lib))
            (toCInt lp64 ((LuaValue.number win).tointeger lp64 lib)))
          (cvSize (-1) (-1)) criteria]) := by
  have himg := toCvArr_image
    [lcvL_pushimage lp64 p should_gc, .userdata u, .number win, .table arr hash] 1 lp64 p
    should_gc hp rfl
  have hcrit := toCriteria_table lp64 lib EPS ITER arr hash
  refine ⟨_, hcrit, ?_⟩
  simp only [lcv_cv_FindCornerSubPix, himg, bind, Except.bind, pure, Except.pure]
  simp [luaL_checkudata, stackAt, hu, luaL_checkinteger, lua_tointeger, lua_isnumber,
    LuaValue.tonumber, Except.map, hcrit]

theorem drawChessboardCorners_eval (lib : LuaLib) (u : Userdata)
    (hu : u.metaname = some CV_META_CORNERS) (p : Nat) (should_gc : Int) (hp : p ≠ NULL)
    (arr : List LuaValue) (hash : List (String × LuaValue)) :
    ∃ size,
      lcvL_toCvSize lp64 lib
          [lcvL_pushimage lp64 p should_gc, .table arr hash, .userdata u] 2 = .ok size ∧
      lcv_cv_DrawChessboardCorners lp64 lib
          [lcvL_pushimage lp64 p should_gc, .table arr hash, .userdata u] =
        .ok ([], [.cvDrawChessboardCorners p size u.payload (cornerCount lp64 u) 1]) := by
  have himg := toCvArr_image
    [lcvL_pushimage lp64 p should_gc, .table arr hash, .userdata u] 1 lp64 p should_gc hp rfl
  have hsize : lcvL_toCvSize lp64 lib
      [lcvL_pushimage lp64 p should_gc, .table arr hash, .userdata u] 2 =
      .ok (cvSize (toCInt lp64 ((lua_rawgeti (.table arr hash) 1).tointeger lp64 lib))
        (toCInt lp64 ((lua_rawgeti (.table arr hash) 2).tointeger lp64 lib))) := by
    simp [lcvL_toCvSize, luaL_checktype, lua_type, stackAt, LuaValue.type, bind, Except.bind,
      pure, Except.pure]
  refine ⟨_, hsize, ?_⟩
  simp only [lcv_cv_DrawChessboardCorners, himg, hsize, bind, Except.bind, pure, Except.pure]
  simp [luaL_checkudata, stackAt, hu]

/-- Claim C10. On LP64 (8-byte points, 4-byte flag word), when
`FindChessboardCorners` returns a corner handle together with a count
`n ≥ 0`, the handle is `8 * n + 4` bytes long and the count recovered from
it is `n`. `FindCornerSubPix`, called with an image, that handle, a window
size and a criteria table, returns normally and passes the count `n` to the
native library, and so does `DrawChessboardCorners`, called with an image, a
size table and that handle; whenever either returns normally, on any
arguments with that handle, the count it passed is `n`. -/
theorem corner_count_recovered (lib : LuaLib)
    (detect : Nat → CvSize → Int → ChessboardResult) (stack : List LuaValue)
    (u : Userdata) (n : Int)
    (h : lcv_cv_FindChessboardCorners lp64 lib detect stack =
      .ok [.userdata u, .number (n : Rat)])
    (h0 : 0 ≤ n) :
    lua_objlen u = 8 * n.toNat + 4 ∧
    cornerCount lp64 u = n ∧
    (∀ EPS ITER p should_gc win arr hash, p ≠ NULL →
      ∃ criteria,
        lcvL_toCriteria lp64 lib EPS ITER (.table arr hash) = .ok criteria ∧
        lcv_cv_FindCornerSubPix lp64 lib EPS ITER
            [lcvL_pushimage lp64 p should_gc, .userdata u, .number win, .table arr hash] =
          .ok ([], [.cvFindCornerSubPix p u.payload n
            (cvSize (toCInt lp64 ((LuaValue.number win).tointeger lp64 lib))
              (toCInt lp64 ((LuaValue.number win).tointeger lp64 lib)))
            (cvSize (-1) (-1)) criteria])) ∧
    (∀ p should_gc arr hash, p ≠ NULL →
      ∃ size,
        lcvL_toCvSize lp64 lib
            [lcvL_pushimage lp64 p should_gc, .table arr hash, .userdata u] 2 = .ok size ∧
        lcv_cv_DrawChessboardCorners lp64 lib
            [lcvL_pushimage lp64 p should_gc, .table arr hash, .userdata u] =
          .ok ([], [.cvDrawChessboardCorners p size u.payload n 1])) ∧
    (∀ EPS ITER stack2 r, stackAt stack2 2 = some (.userdata u) →
      lcv_cv_FindCornerSubPix lp64 lib EPS ITER stack2 = .ok r →
      ∃ img win zeroZone criteria,
        r.2 = [.cvFindCornerSubPix img u.payload n win zeroZone criteria]) ∧
    (∀ stack3 r, stackAt stack3 3 = some (.userdata u) →
      lcv_cv_DrawChessboardCorners lp64 lib stack3 = .ok r →
      ∃ img size, r.2 = [.cvDrawChessboardCorners img size u.payload n 1]) := by
  obtain ⟨h1, pts, hu⟩ := findChessboardCorners_handle lib detect stack u n h
  have hmeta : u.metaname = some CV_META_CORNERS := by rw [hu]; rfl
  have hlen : lua_objlen u = 8 * n.toNat + 4 := by
    rw [hu]
    exact corners_len_lp64 n h0 h1 1
  have hcount : cornerCount lp64 u = n := cornerCount_of_len u n h0 h1 hlen
  refine ⟨hlen, hcount, ?_, ?_, ?_, ?_⟩
  · intro EPS ITER p gc win arr hash hp
    have := findCornerSubPix_eval lib EPS ITER u hmeta p gc hp win arr hash
    rwa [hcount] at this
  · intro p gc arr hash hp
    have := drawChessboardCorners_eval lib u hmeta p gc hp arr hash
    rwa [hcount] at this
  · intro EPS ITER stack2 r hs hr
    have := findCornerSubPix_count lib EPS ITER stack2 u r hs hr
    rwa [hcount] at this
  · intro stack3 r hs hr
    have := drawChessboardCorners_count lib stack3 u r hs hr
    rwa [hcount] at this

theorem sampleDetect_result :
    lcv_cv_FindChessboardCorners lp64 plainLib sampleDetect sampleBoardArgs =
      .ok [.userdata sampleCorners, .number ((54 : Int) : Rat)] := by
  have h54 : toCInt lp64 54 = 54 := by decide
  simp [lcv_cv_FindChessboardCorners, sampleBoardArgs, sampleDetect, sampleCorners,
    lcvL_toCvArr, lcvL_pushimage, NULL, lua_type, stackAt, LuaValue.type, LCV_GET,
    luaL_checkudata, newImage, lcvL_newuserdata, Userdata.deref, lcvL_toCvSize,
    luaL_checktype, h54, bind, Except.bind, pure, Except.pure]
  simp [toSizeT, intToSizeT, lp64]

/-- Witness of C10: 54 corners of a 9 by 6 board; `FindCornerSubPix` with
window size 5 and criteria `{eps = 1, iter = 30}` and `DrawChessboardCorners`
with the board size both return normally and pass the count 54. -/
theorem corner_count_recovered_witness :
    lcv_cv_FindChessboardCorners lp64 plainLib sampleDetect sampleBoardArgs =
      .ok [.userdata sampleCorners, .number ((54 : Int) : Rat)] ∧
    (0 : Int) ≤ 54 ∧
    lua_objlen sampleCorners = 8 * (54 : Int).toNat + 4 ∧
    cornerCount lp64 sampleCorners = 54 ∧
    (∃ criteria,
      lcvL_toCriteria lp64 plainLib 2 1
          (.table [] [("eps", .number 1), ("iter", .number 30)]) = .ok criteria ∧
      lcv_cv_FindCornerSubPix lp64 plainLib 2 1
          [lcvL_pushimage lp64 5 1, .userdata sampleCorners, .number 5,
            .table [] [("eps", .number 1), ("iter", .number 30)]] =
        .ok ([], [.cvFindCornerSubPix 5 sampleCorners.payload 54
          (cvSize (toCInt lp64 ((LuaValue.number 5).tointeger lp64 plainLib))
            (toCInt lp64 ((LuaValue.number 5).tointeger lp64 plainLib)))
          (cvSize (-1) (-1)) criteria])) ∧
    (∃ size,
      lcvL_toCvSize lp64 plainLib
          [lcvL_pushimage lp64 5 1, .table [.number 9, .number 6] [],
            .userdata sampleCorners] 2 = .ok size ∧
      lcv_cv_DrawChessboardCorners lp64 plainLib
          [lcvL_pushimage lp64 5 1, .table [.number 9, .number 6] [],
            .userdata sampleCorners] =
        .ok ([], [.cvDrawChessboardCorners 5 size sampleCorners.payload 54 1])) :=
  ⟨sampleDetect_result, by decide,
    (corner_count_recovered plainLib sampleDetect sampleBoardArgs sampleCorners 54
      sampleDetect_result (by decide)).1,
    (corner_count_recovered plainLib sampleDetect sampleBoardArgs sampleCorners 54
      sampleDetect_result (by decide)).2.1,
    (corner_count_recovered plainLib sampleDetect sampleBoardArgs sampleCorners 54
      sampleDetect_result (by decide)).2.2.1 2 1 5 1 5 []
      [("eps", .number 1), ("iter", .number 30)] (by decide),
    (corner_count_recovered plainLib sampleDetect sampleBoardArgs sampleCorners 54
      sampleDetect_result (by decide)).2.2.2.1 5 1 [.number 9, .number 6] [] (by decide)⟩

/-! ## Creating an image and reading its size back -/

theorem recording_recordsSize (size : CvSize) (depth : IplDepth) (channels : Int) :
    RecordsSizeAt recordingCreate recordingGetSize size depth channels := by
  refine ⟨by simp [recordingCreate, NULL], ?_⟩
  simp [recordingCreate, recordingGetSize, Encodable.encodek]

theorem depth_name_index (i : Nat) (name : String)
    (h : IMG_depth_names.get? i = some (some name)) :
    findOption 2 name IMG_depth_names 0 = .ok i := by
  have hi : i < 7 := by
    by_contra hcon
    have hlen : IMG_depth_names.length ≤ i := by simp [IMG_depth_names]; omega
    rw [List.get?_eq_getElem?, List.getElem?_eq_none hlen] at h
    cases h
  interval_cases i <;>
    · simp only [IMG_depth_names, List.get?, Option.some.injEq] at h
      subst h
      simp [findOption, IMG_depth_names]

theorem toCInt_toPtrdiff_lp64 (z : Int) : toCInt lp64 (toPtrdiff lp64 z) = toCInt lp64 z := by
  simp only [toCInt, toPtrdiff, wrapSigned, lp64]
  norm_num
  omega

theorem createImage_eval (lib : LuaLib) (create : CvSize → IplDepth → Int → Nat)
    (w h : Rat) (ch : Int) (i : Nat) (name : String)
    (hname : IMG_depth_names.get? i = some (some name)) :
    lcv_cv_CreateImage lp64 lib create
        [.table [.number w, .number h] [], .string name, .number ch] =
      .ok [lcvL_pushimage lp64
        (create (cvSize (toCInt lp64 ((LuaValue.number w).tointeger lp64 lib))
          (toCInt lp64 ((LuaValue.number h).tointeger lp64 lib)))
          (IMG_depth_values.getD i .IPL_DEPTH_8U) (toCInt lp64 ch)) 1] := by
  have hi := depth_name_index i name hname
  have hch : toCInt lp64 ((LuaValue.number (ch : Rat)).tointeger lp64 lib) = toCInt lp64 ch := by
    simp only [LuaValue.tointeger, LuaValue.tonumber, truncRat_intCast]
    exact toCInt_toPtrdiff_lp64 ch
  rw [← hch]
  simp [lcv_cv_CreateImage, lcvL_toCvSize, luaL_checktype, lua_type, stackAt, LuaValue.type,
    lua_rawgeti, luaL_checkoption, luaL_checkstring, hi, luaL_optinteger, lua_isnoneornil,
    LuaValue.isnil, luaL_checkinteger, lua_isnumber, lua_tointeger, LuaValue.tonumber,
    Except.map, bind, Except.bind, pure, Except.pure]

theorem getSize_pushimage (getsize : Nat → CvSize) (p : Nat) (should_gc : Int)
    (hp : p ≠ NULL) :
    lcv_cv_GetSize getsize [lcvL_pushimage lp64 p should_gc] =
      .ok [lcvL_pushsize (getsize p)] := by
  have h := toCvArr_image [lcvL_pushimage lp64 p should_gc] 1 lp64 p should_gc hp rfl
  simp [lcv_cv_GetSize, h, bind, Except.bind, pure, Except.pure]

/-- Claim C7, counterexample. The size table `{2147483648, 1}` holds integers,
yet `CreateImage` followed by `GetSize`, on a native library that creates an
image at every call and records the size it was created with, returns
`{-2147483648, 1}`: the width does not fit the `int` of `CvSize`. -/
theorem createImage_getSize_overflow :
    (∀ size depth channels,
      RecordsSizeAt recordingCreate recordingGetSize size depth channels) ∧
    ∃ img,
      lcv_cv_CreateImage lp64 plainLib recordingCreate
          [.table [.number 2147483648, .number 1] [], .string "8u", .number 3] = .ok [img] ∧
      lcv_cv_GetSize recordingGetSize [img] =
        .ok [.table [.number (-2147483648), .number 1] []] ∧
      lcv_cv_GetSize recordingGetSize [img] ≠
        .ok [.table [.number 2147483648, .number 1] []] := by
  refine ⟨recording_recordsSize, ?_⟩
  have h := createImage_eval plainLib recordingCreate 2147483648 1 3 0 "8u" rfl
  have h3 : (((3 : Int) : Rat)) = 3 := by norm_num
  rw [h3] at h
  have hw : toCInt lp64 ((LuaValue.number 2147483648).tointeger lp64 plainLib)
      = -2147483648 := by
    have e : (2147483648 : Rat) = ((2147483648 : Int) : Rat) := by norm_num
    rw [e]
    simp only [LuaValue.tointeger, LuaValue.tonumber, truncRat_intCast]
    decide
  have hh : toCInt lp64 ((LuaValue.number 1).tointeger lp64 plainLib) = 1 := by
    have e : (1 : Rat) = ((1 : Int) : Rat) := by norm_num
    rw [e]
    exact tointeger_intCast_lp64 plainLib 1 (by decide) (by decide)
  rw [hw, hh] at h
  refine ⟨_, h, ?_⟩
  have hg := getSize_pushimage recordingGetSize
    (recordingCreate (cvSize (-2147483648) 1) (IMG_depth_values.getD 0 .IPL_DEPTH_8U)
      (toCInt lp64 3)) 1
    (recording_recordsSize _ _ _).1
  rw [(recording_recordsSize _ _ _).2] at hg
  rw [hg]
  constructor
  · simp [lcvL_pushsize, cvSize]
  · simp [lcvL_pushsize, cvSize]
    norm_num

/-- Claim C7, amended. For every size table `{w, h}` of integers in the range
of `int`, each of the seven pixel-depth options (option number `i` of
`IMG_depth_names`, which selects entry `i` of `IMG_depth_values`) and every
channel count `ch`, `CreateImage` followed by `GetSize` on the resulting image
returns the table `{w, h}`, width first and height second, provided the one
native call that `CreateImage` makes, with the size `(w, h)`, that depth and
the channel count as an `int`, yields an image that records its size. -/
theorem createImage_getSize (lib : LuaLib) (create : CvSize → IplDepth → Int → Nat)
    (getsize : Nat → CvSize) (w h ch : Int) (i : Nat) (name : String)
    (hname : IMG_depth_names.get? i = some (some name))
    (hw0 : INT_MIN lp64 ≤ w) (hw1 : w ≤ INT_MAX lp64)
    (hh0 : INT_MIN lp64 ≤ h) (hh1 : h ≤ INT_MAX lp64)
    (hnative : RecordsSizeAt create getsize (cvSize w h)
      (IMG_depth_values.getD i .IPL_DEPTH_8U) (toCInt lp64 ch)) :
    ∃ img,
      lcv_cv_CreateImage lp64 lib create
          [.table [.number w, .number h] [], .string name, .number ch] = .ok [img] ∧
      lcv_cv_GetSize getsize [img] = .ok [.table [.number w, .number h] []] := by
  have hc := createImage_eval lib create w h ch i name hname
  rw [tointeger_intCast_lp64 lib w hw0 hw1, tointeger_intCast_lp64 lib h hh0 hh1] at hc
  refine ⟨_, hc, ?_⟩
  rw [getSize_pushimage getsize _ 1 hnative.1, hnative.2]
  rfl

theorem strict_recordsSize (size : CvSize) (depth : IplDepth) (channels : Int)
    (hw : 0 < size.width) (hh : 0 < size.height) :
    RecordsSizeAt strictCreate recordingGetSize size depth channels := by
  have h : strictCreate size depth channels = recordingCreate size depth channels := by
    simp [strictCreate, hw, hh]
  unfold RecordsSizeAt
  rw [h]
  exact recording_recordsSize size depth channels

/-- Witness of the amended C7: a 640 by 480 image, depth "8u", 3 channels, on
a native library that fails on sizes that are not positive. -/
theorem createImage_getSize_witness :
    IMG_depth_names.get? 0 = some (some "8u") ∧
    INT_MIN lp64 ≤ 640 ∧ (640 : Int) ≤ INT_MAX lp64 ∧
    INT_MIN lp64 ≤ 480 ∧ (480 : Int) ≤ INT_MAX lp64 ∧
    RecordsSizeAt strictCreate recordingGetSize (cvSize 640 480)
      (IMG_depth_values.getD 0 .IPL_DEPTH_8U) (toCInt lp64 3) ∧
    strictCreate (cvSize 0 0) .IPL_DEPTH_8U 3 = NULL ∧
    ∃ img,
      lcv_cv_CreateImage lp64 plainLib strictCreate
          [.table [.number (640 : Int), .number (480 : Int)] [], .string "8u",
            .number (3 : Int)] = .ok [img] ∧
      lcv_cv_GetSize recordingGetSize [img] =
        .ok [.table [.number (640 : Int), .number (480 : Int)] []] :=
  ⟨rfl, by decide, by decide, by decide, by decide,
    strict_recordsSize _ _ _ (by decide) (by decide), by decide,
    createImage_getSize plainLib strictCreate recordingGetSize 640 480 3 0 "8u" rfl
      (by decide) (by decide) (by decide) (by decide)
      (strict_recordsSize _ _ _ (by decide) (by decide))⟩

/-! ## Dispatch from a trampoline to the registered closure -/

theorem createTrackbar_five (abi : ABI) (lib : LuaLib) (s : TrackbarState) (L : Nat)
    (stack : List LuaValue) (hv : FiveTrackbarArgs stack) (h : s.tb_count ≠ MAX_TRACKBARS) :
    ∃ val native,
      lcv_hg_CreateTrackbar abi lib s L stack =
        ({ trackbars := s.trackbars.set s.tb_count
             { L := some L, ref := ((s.registry.length + 1 : Nat) : Int), val := val }
           tb_count := s.tb_count + 1
           registry := s.registry ++ [callbackArg stack]
           native := native }, .ok []) := by
  obtain ⟨tbName, wndName, val, max, f, rfl⟩ := hv
  simp [lcv_hg_CreateTrackbar, h, luaL_checkstring, luaL_checkint, luaL_checkinteger,
    luaL_checktype, stackAt, lua_type, lua_isnumber, lua_tointeger, LuaValue.tonumber,
    LuaValue.type, luaL_typerror, luaL_ref, callbackArg, bind, Except.bind, Except.map, pure,
    Except.pure]
  exact ⟨_, rfl⟩

theorem dispatchInv_init (registry : List LuaValue) :
    DispatchInv registry [] (.init registry) := by
  refine ⟨rfl, by simp [TrackbarState.init], by simp [TrackbarState.init], ?_, ?_⟩
  · intro i c h
    simp at h
  · intro i _ hi
    simp [TrackbarState.init, List.getElem?_replicate, hi]

theorem dispatchInv_step (abi : ABI) (lib : LuaLib) (registry0 : List LuaValue)
    (done : List (Nat × List LuaValue)) (s : TrackbarState) (c : Nat × List LuaValue)
    (hinv : DispatchInv registry0 done s) (hlt : done.length < MAX_TRACKBARS)
    (hc : FiveTrackbarArgs c.2) :
    DispatchInv registry0 (done ++ [c]) (lcv_hg_CreateTrackbar abi lib s c.1 c.2).1 := by
  obtain ⟨hcnt, hlen, hreg, hbound, hfree⟩ := hinv
  have hne : s.tb_count ≠ MAX_TRACKBARS := by omega
  obtain ⟨val, native, heq⟩ := createTrackbar_five abi lib s c.1 c.2 hc hne
  rw [heq]
  refine ⟨by simp [hcnt], by simpa using hlen, by simp [hreg], ?_, ?_⟩
  · intro i d hd
    by_cases hi : i < done.length
    · have hd2 : done.get? i = some d := by
        simpa [List.getElem?_append_left hi] using hd
      obtain ⟨val2, h2⟩ := hbound i d hd2
      refine ⟨val2, ?_⟩
      simp only [List.get?_eq_getElem?] at h2 ⊢
      rw [List.getElem?_set_ne (by omega)]
      exact h2
    · have hi2 : i = done.length := by
        by_contra hcon
        have : (done ++ [c]).length ≤ i := by simp; omega
        simp [List.getElem?_eq_none this] at hd
      subst hi2
      have hd2 : d = c := by
        simpa using hd.symm
      subst hd2
      refine ⟨val, ?_⟩
      simp only [List.get?_eq_getElem?]
      rw [hcnt, List.getElem?_set_self (by omega), hreg]
      simp
  · intro i hi hi24
    simp only [List.length_append, List.length_singleton] at hi
    have := hfree i (by omega) hi24
    simp only [List.get?_eq_getElem?] at this ⊢
    rw [List.getElem?_set_ne (by omega)]
    exact this

theorem dispatchInv_run (abi : ABI) (lib : LuaLib) (registry0 : List LuaValue)
    (calls : List (Nat × List LuaValue)) (done : List (Nat × List LuaValue))
    (s : TrackbarState) (hinv : DispatchInv registry0 done s)
    (hlen : done.length + calls.length ≤ MAX_TRACKBARS)
    (hfive : ∀ c ∈ calls, FiveTrackbarArgs c.2) :
    DispatchInv registry0 (done ++ calls) (runCreateTrackbars abi lib s calls) := by
  induction calls generalizing s done with
  | nil => simpa [runCreateTrackbars] using hinv
  | cons c cs ih =>
    simp only [List.length_cons] at hlen
    have hstep := dispatchInv_step abi lib registry0 done s c hinv (by omega)
      (hfive c (by simp))
    have := ih (done ++ [c]) _ hstep (by simp; omega) (fun d hd => hfive d (by simp [hd]))
    simpa [runCreateTrackbars] using this

/-- Dispatch for calls with exactly five arguments. After any sequence of at
most 24 such `CreateTrackbar` calls, the trampoline
bound by call number `i` (counted from 0), `tracker (i + 1)`, makes exactly
one call: the callback of that call, on the Lua state of that call, with the
new value as the single argument. The trampolines of the slots not yet bound
make no call. -/
theorem tracker_dispatch_five_args (abi : ABI) (lib : LuaLib) (registry : List LuaValue)
    (calls : List (Nat × List LuaValue)) (hfive : ∀ c ∈ calls, FiveTrackbarArgs c.2)
    (hlen : calls.length ≤ MAX_TRACKBARS) (v : Int) :
    (∀ i c, calls.get? i = some c →
      tracker (i + 1) (runCreateTrackbars abi lib (.init registry) calls) v =
        [{ L := c.1, callee := callbackArg c.2, args := [.number v] }]) ∧
    (∀ i, calls.length ≤ i → i < MAX_TRACKBARS →
      tracker (i + 1) (runCreateTrackbars abi lib (.init registry) calls) v = []) := by
  have hinv := dispatchInv_run abi lib registry calls [] _ (dispatchInv_init registry)
    (by simpa using hlen) hfive
  rw [List.nil_append] at hinv
  obtain ⟨hcnt, hl, hreg, hbound, hfree⟩ := hinv
  constructor
  · intro i c hc
    obtain ⟨val, hval⟩ := hbound i c hc
    have hi : i < calls.length := by
      by_contra hcon
      simp [List.getElem?_eq_none (Nat.le_of_not_lt hcon)] at hc
    have hget : registryGet (runCreateTrackbars abi lib (.init registry) calls).registry
        ((registry.length + i + 1 : Nat) : Int) = callbackArg c.2 := by
      have hc2 : calls[i]? = some c := by simpa using hc
      rw [hreg, registryGet, if_pos (by omega)]
      have : ((registry.length + i + 1 : Nat) : Int).toNat - 1 = registry.length + i := by
        omega
      rw [this]
      simp [List.getElem?_append_right, hc2]
    simp only [tracker, track, Nat.add_sub_cancel, hval, hget]
  · intro i hi hi24
    have := hfree i hi hi24
    simp only [tracker, track, Nat.add_sub_cancel, this]


/-- Claim C6, the code at the failing input. A `CreateTrackbar` call with a
sixth argument after the callback succeeds and binds slot 1, but `luaL_ref`
takes the value on top of the stack: `tracker1` then calls the sixth argument
`function 2` with the new value, and never the callback `function 1` that was
passed as the fifth argument. -/
theorem tracker_calls_top_of_stack (v : Int) :
    (lcv_hg_CreateTrackbar lp64 plainLib (.init []) 1 sixTrackbarArgs).2 = .ok [] ∧
    stackAt sixTrackbarArgs 5 = some (.function 1) ∧
    tracker 1 (lcv_hg_CreateTrackbar lp64 plainLib (.init []) 1 sixTrackbarArgs).1 v =
      [{ L := 1, callee := .function 2, args := [.number v] }] := by
  have hv : toCInt lp64 ((LuaValue.number 0).tointeger lp64 plainLib) = 0 := by
    have e : (0 : Rat) = ((0 : Int) : Rat) := by norm_num
    rw [e]
    exact tointeger_intCast_lp64 plainLib 0 (by decide) (by decide)
  have h : lcv_hg_CreateTrackbar lp64 plainLib (.init []) 1 sixTrackbarArgs =
      ({ trackbars := (TrackbarState.init []).trackbars.set 0 { L := some 1, ref := 1, val := 0 }
         tb_count := 1
         registry := [.function 2]
         native := [.cvCreateTrackbar "threshold" "window" 0
           (toCInt lp64 ((LuaValue.number 255).tointeger lp64 plainLib)) 1] }, .ok []) := by
    simp [lcv_hg_CreateTrackbar, TrackbarState.init, MAX_TRACKBARS, sixTrackbarArgs,
      luaL_checkstring, luaL_checkint, luaL_checkinteger, luaL_checktype, stackAt, lua_type,
      lua_isnumber, lua_tointeger, LuaValue.tonumber, LuaValue.type, luaL_ref, trackers,
      bind, Except.bind, Except.map, pure, Except.pure, hv]
  rw [h]
  refine ⟨rfl, by simp [stackAt, sixTrackbarArgs], ?_⟩
  simp [tracker, track, TrackbarState.init, MAX_TRACKBARS, List.replicate, registryGet]

end LuaCV
